import Mathlib

/-!
# libobs-opengl/gl-windows.c : the Windows/EGL platform binding

A shallow embedding of `src/libobs-opengl/gl-windows.c`.

* C pointers are addresses (`Ptr`, with `NULL = 0`) into a typed heap
  (`Memory`): one partial map per C struct type.  Dereferencing `NULL` or an
  address that holds no object is undefined behaviour in C; the embedded
  functions then return `none`.
* EGL, glad, Win32 and the libobs allocator are outside the file.  They are a
  parameter `Env`: what each entry point answers to a request.  Every
  request the code issues is appended, with its answer, to the `trace` of
  the state, so that "the code requests X" is a statement about the trace.
* The `_DEBUG` preprocessor switch is the field `Env.debug`.
-/

namespace GlWindows

/-! ## Handles, pointers and the constants of the EGL header -/

/-- An address.  `0` is the null pointer. -/
abbrev Ptr := Nat

/-- The null pointer. -/
def NULL : Ptr := 0

/-- `EGLDisplay`, an opaque pointer-sized handle. -/
abbrev EGLDisplay := Nat
/-- `EGLConfig`, an opaque pointer-sized handle. -/
abbrev EGLConfig := Nat
/-- `EGLContext`, an opaque pointer-sized handle. -/
abbrev EGLContext := Nat
/-- `EGLSurface`, an opaque pointer-sized handle. -/
abbrev EGLSurface := Nat
/-- `HWND`, the native window handle. -/
abbrev HWND := Nat
/-- `EGLint`, a 32-bit signed integer. -/
abbrev EGLint := Int
/-- `EGLBoolean`, an unsigned integer: `EGL_FALSE` is `0`, anything else is true. -/
abbrev EGLBoolean := Nat

/-- Modelled from the spec: `glad/egl.h` is not among the sources.
`EGL_NO_DISPLAY` is the null display handle. -/
def EGL_NO_DISPLAY : EGLDisplay := 0
/-- Modelled from the spec: `glad/egl.h` is not among the sources.
`EGL_NO_CONTEXT` is the null context handle. -/
def EGL_NO_CONTEXT : EGLContext := 0
/-- Modelled from the spec: `glad/egl.h` is not among the sources.
`EGL_NO_SURFACE` is the null surface handle. -/
def EGL_NO_SURFACE : EGLSurface := 0
/-- Modelled from the spec: `glad/egl.h` is not among the sources.
`EGL_DEFAULT_DISPLAY` is the null native display. -/
def EGL_DEFAULT_DISPLAY : Ptr := 0
/-- Modelled from the spec: `glad/egl.h` is not among the sources. -/
def EGL_FALSE : EGLBoolean := 0

/-! The fifteen EGL error codes, `0x3000` to `0x300E`, in the order of the
Khronos header. -/

/-- Modelled from the spec: `glad/egl.h` is not among the sources. -/
def EGL_SUCCESS : EGLint := 0x3000
/-- Modelled from the spec: `glad/egl.h` is not among the sources. -/
def EGL_NOT_INITIALIZED : EGLint := 0x3001
/-- Modelled from the spec: `glad/egl.h` is not among the sources. -/
def EGL_BAD_ACCESS : EGLint := 0x3002
/-- Modelled from the spec: `glad/egl.h` is not among the sources. -/
def EGL_BAD_ALLOC : EGLint := 0x3003
/-- Modelled from the spec: `glad/egl.h` is not among the sources. -/
def EGL_BAD_ATTRIBUTE : EGLint := 0x3004
/-- Modelled from the spec: `glad/egl.h` is not among the sources. -/
def EGL_BAD_CONFIG : EGLint := 0x3005
/-- Modelled from the spec: `glad/egl.h` is not among the sources. -/
def EGL_BAD_CONTEXT : EGLint := 0x3006
/-- Modelled from the spec: `glad/egl.h` is not among the sources. -/
def EGL_BAD_CURRENT_SURFACE : EGLint := 0x3007
/-- Modelled from the spec: `glad/egl.h` is not among the sources. -/
def EGL_BAD_DISPLAY : EGLint := 0x3008
/-- Modelled from the spec: `glad/egl.h` is not among the sources. -/
def EGL_BAD_MATCH : EGLint := 0x3009
/-- Modelled from the spec: `glad/egl.h` is not among the sources. -/
def EGL_BAD_NATIVE_PIXMAP : EGLint := 0x300A
/-- Modelled from the spec: `glad/egl.h` is not among the sources. -/
def EGL_BAD_NATIVE_WINDOW : EGLint := 0x300B
/-- Modelled from the spec: `glad/egl.h` is not among the sources. -/
def EGL_BAD_PARAMETER : EGLint := 0x300C
/-- Modelled from the spec: `glad/egl.h` is not among the sources. -/
def EGL_BAD_SURFACE : EGLint := 0x300D
/-- Modelled from the spec: `glad/egl.h` is not among the sources. -/
def EGL_CONTEXT_LOST : EGLint := 0x300E

/-- The function `get_egl_error_string2` (lines 71-96): a `switch` whose
fifteen cases return the stringified macro name, and whose default is
`"Unknown"`.  The cases are tried in the order of the source. -/
def get_egl_error_string2 (error : EGLint) : String :=
  if error = EGL_SUCCESS then "EGL_SUCCESS"
  else if error = EGL_NOT_INITIALIZED then "EGL_NOT_INITIALIZED"
  else if error = EGL_BAD_ACCESS then "EGL_BAD_ACCESS"
  else if error = EGL_BAD_ALLOC then "EGL_BAD_ALLOC"
  else if error = EGL_BAD_ATTRIBUTE then "EGL_BAD_ATTRIBUTE"
  else if error = EGL_BAD_CONTEXT then "EGL_BAD_CONTEXT"
  else if error = EGL_BAD_CONFIG then "EGL_BAD_CONFIG"
  else if error = EGL_BAD_CURRENT_SURFACE then "EGL_BAD_CURRENT_SURFACE"
  else if error = EGL_BAD_DISPLAY then "EGL_BAD_DISPLAY"
  else if error = EGL_BAD_SURFACE then "EGL_BAD_SURFACE"
  else if error = EGL_BAD_MATCH then "EGL_BAD_MATCH"
  else if error = EGL_BAD_PARAMETER then "EGL_BAD_PARAMETER"
  else if error = EGL_BAD_NATIVE_PIXMAP then "EGL_BAD_NATIVE_PIXMAP"
  else if error = EGL_BAD_NATIVE_WINDOW then "EGL_BAD_NATIVE_WINDOW"
  else if error = EGL_CONTEXT_LOST then "EGL_CONTEXT_LOST"
  else "Unknown"

/-! ## Attribute lists (lines 25-51, 210, 214-218) -/

/-- Modelled from the spec: `glad/egl.h` is not among the sources.  The values
are those of the Khronos EGL headers; no property below depends on them. -/
def EGL_NONE : EGLint := 0x3038
/-- Modelled from the spec: see `EGL_NONE`. -/
def EGL_CONTEXT_FLAGS_KHR : EGLint := 0x30FC
/-- Modelled from the spec: see `EGL_NONE`. -/
def EGL_CONTEXT_OPENGL_DEBUG_BIT_KHR : EGLint := 0x1
/-- Modelled from the spec: see `EGL_NONE`. -/
def EGL_CONTEXT_MAJOR_VERSION : EGLint := 0x3098
/-- Modelled from the spec: see `EGL_NONE`. -/
def EGL_CONTEXT_MINOR_VERSION : EGLint := 0x30FB
/-- Modelled from the spec: see `EGL_NONE`. -/
def EGL_WIDTH : EGLint := 0x3057
/-- Modelled from the spec: see `EGL_NONE`. -/
def EGL_HEIGHT : EGLint := 0x3056
/-- Modelled from the spec: see `EGL_NONE`. -/
def EGL_STENCIL_SIZE : EGLint := 0x3026
/-- Modelled from the spec: see `EGL_NONE`. -/
def EGL_DEPTH_SIZE : EGLint := 0x3025
/-- Modelled from the spec: see `EGL_NONE`. -/
def EGL_BUFFER_SIZE : EGLint := 0x3020
/-- Modelled from the spec: see `EGL_NONE`. -/
def EGL_ALPHA_SIZE : EGLint := 0x3021
/-- Modelled from the spec: see `EGL_NONE`. -/
def EGL_RENDERABLE_TYPE : EGLint := 0x3040
/-- Modelled from the spec: see `EGL_NONE`. -/
def EGL_OPENGL_ES3_BIT : EGLint := 0x40
/-- Modelled from the spec: see `EGL_NONE`. -/
def EGL_SURFACE_TYPE : EGLint := 0x3033
/-- Modelled from the spec: see `EGL_NONE`.  The value of
`EGL_WINDOW_BIT | EGL_PBUFFER_BIT`, that is `0x4 | 0x1`. -/
def EGL_WINDOW_BIT_or_EGL_PBUFFER_BIT : EGLint := 0x5
/-- Modelled from the spec: see `EGL_NONE`. -/
def EGL_OPENGL_ES_API : Nat := 0x30A0
/-- Modelled from the spec: see `EGL_NONE`. -/
def EGL_TRUE : EGLint := 1
/-- Modelled from the spec: see `EGL_NONE`. -/
def EGL_DEBUG_MSG_CRITICAL_KHR : EGLint := 0x33B9
/-- Modelled from the spec: see `EGL_NONE`. -/
def EGL_DEBUG_MSG_ERROR_KHR : EGLint := 0x33BA
/-- Modelled from the spec: see `EGL_NONE`. -/
def EGL_DEBUG_MSG_WARN_KHR : EGLint := 0x33BB
/-- Modelled from the spec: see `EGL_NONE`. -/
def EGL_DEBUG_MSG_INFO_KHR : EGLint := 0x33BC

/-- The array `ctx_attribs` (lines 25-35); its first two entries exist only
under `_DEBUG`. -/
def ctx_attribs (debug : Bool) : List EGLint :=
  (if debug then [EGL_CONTEXT_FLAGS_KHR, EGL_CONTEXT_OPENGL_DEBUG_BIT_KHR] else []) ++
    [EGL_CONTEXT_MAJOR_VERSION, 3, EGL_CONTEXT_MINOR_VERSION, 0, EGL_NONE]

/-- The array `ctx_pbuffer_attribs` (line 37). -/
def ctx_pbuffer_attribs : List EGLint := [EGL_WIDTH, 2, EGL_HEIGHT, 2, EGL_NONE]

/-- The array `ctx_config_attribs` (lines 39-51). -/
def ctx_config_attribs : List EGLint :=
  [EGL_STENCIL_SIZE, 0, EGL_DEPTH_SIZE, 0, EGL_BUFFER_SIZE, 24, EGL_ALPHA_SIZE, 0,
   EGL_RENDERABLE_TYPE, EGL_OPENGL_ES3_BIT,
   EGL_SURFACE_TYPE, EGL_WINDOW_BIT_or_EGL_PBUFFER_BIT, EGL_NONE]

/-- The array `display_args` (line 210). -/
def display_args : List EGLint := [0x3203, 0x3208, EGL_NONE]

/-- The array `all_messages` (lines 214-218, `_DEBUG` only). -/
def all_messages : List EGLint :=
  [EGL_DEBUG_MSG_CRITICAL_KHR, EGL_TRUE, EGL_DEBUG_MSG_ERROR_KHR, EGL_TRUE,
   EGL_DEBUG_MSG_WARN_KHR, EGL_TRUE, EGL_DEBUG_MSG_INFO_KHR, EGL_TRUE, EGL_NONE]

/-! ## Data model -/

/-- The struct `gl_windowinfo` (lines 55-58). -/
structure gl_windowinfo where
  hwnd : HWND
  surface : EGLSurface
deriving DecidableEq, Repr

/-- The struct `gl_platform` (lines 62-67). -/
structure gl_platform where
  edisplay : EGLDisplay
  config : EGLConfig
  context : EGLContext
  pbuffer : EGLSurface
deriving DecidableEq, Repr

/-- Modelled from the spec: `struct gs_swap_chain` is declared in
`gl-subsystem.h`, which is not among the sources.  The file reads its members
`device` and `wi`; `rest` stands for the members it never names. -/
structure gs_swap_chain where
  device : Ptr
  wi : Ptr
  rest : Nat
deriving DecidableEq, Repr

/-- Modelled from the spec: `struct gs_device` is declared in
`gl-subsystem.h`, which is not among the sources.  The file names the seven
members below; `rest` stands for the members it never names. -/
structure gs_device where
  plat : Ptr
  cur_vertex_buffer : Ptr
  cur_index_buffer : Ptr
  cur_render_target : Ptr
  cur_zstencil_buffer : Ptr
  cur_swap : Ptr
  cur_fbo : Ptr
  rest : Nat
deriving DecidableEq, Repr

/-- The Win32 `RECT`: four `LONG` members. -/
structure RECT where
  left : Int
  top : Int
  right : Int
  bottom : Int
deriving DecidableEq, Repr

/-- The log levels the file passes to `blog`. -/
inductive LogLevel where
  | LOG_ERROR
  | LOG_DEBUG
deriving DecidableEq, Repr

/-- A variadic argument of `blog`. -/
inductive LogArg where
  | str (s : String)
  | ptr (p : Nat)
deriving DecidableEq, Repr

/-- One request to the world outside the file, with the answer it got. -/
inductive Event where
  | bmalloc (ret : Ptr)
  | bfree (p : Ptr)
  | blog (level : LogLevel) (format : String) (args : List LogArg)
  | gladLoaderLoadEGL (display : EGLDisplay) (ret : Int)
  | gladLoaderLoadGLES2 (ret : Int)
  | eglGetPlatformDisplayEXT (platform : Nat) (native : Ptr) (attribs : List EGLint)
      (ret : EGLDisplay)
  | eglDebugMessageControlKHR (attribs : List EGLint) (ret : EGLint)
  | eglInitialize (dpy : EGLDisplay) (ret : EGLBoolean) (major minor : EGLint)
  | eglBindAPI (api : Nat) (ret : EGLBoolean)
  | eglChooseConfig (dpy : EGLDisplay) (attribs : List EGLint) (config_size : EGLint)
      (ret : EGLBoolean) (config : EGLConfig) (num_config : EGLint)
  | eglCreateContext (dpy : EGLDisplay) (config : EGLConfig) (share : EGLContext)
      (attribs : List EGLint) (ret : EGLContext)
  | eglCreatePbufferSurface (dpy : EGLDisplay) (config : EGLConfig) (attribs : List EGLint)
      (ret : EGLSurface)
  | eglCreateWindowSurface (dpy : EGLDisplay) (config : EGLConfig) (win : HWND)
      (attribs : Ptr) (ret : EGLSurface)
  | eglMakeCurrent (dpy : EGLDisplay) (draw read : EGLSurface) (ctx : EGLContext)
      (ret : EGLBoolean)
  | eglDestroyContext (dpy : EGLDisplay) (ctx : EGLContext) (ret : EGLBoolean)
  | eglTerminate (dpy : EGLDisplay) (ret : EGLBoolean)
  | eglSwapInterval (dpy : EGLDisplay) (interval : EGLint) (ret : EGLBoolean)
  | eglSwapBuffers (dpy : EGLDisplay) (surface : EGLSurface) (ret : EGLBoolean)
  | eglGetError (ret : EGLint)
  | glFlush
  | GetClientRect (hwnd : HWND) (ret : Nat) (rc : RECT)
deriving DecidableEq, Repr

/-- The world outside the file.  Each field answers one entry point as a
function of the arguments of the request.  An out-parameter is answered by
the value the variable holds after the call.  `eglGetError` reports the error
of the most recent request, so it is a function of the last event. -/
structure Env where
  /-- Whether the file is compiled with `_DEBUG`. -/
  debug : Bool
  /-- The address `bmalloc(sizeof(struct gl_platform))` returns. -/
  bmalloc : Ptr
  /-- The indeterminate contents of a block fresh from `bmalloc`. -/
  fresh : gl_platform
  gladLoaderLoadEGL : EGLDisplay → Int
  gladLoaderLoadGLES2 : Int
  eglGetPlatformDisplayEXT : Nat → Ptr → List EGLint → EGLDisplay
  eglDebugMessageControlKHR : List EGLint → EGLint
  eglInitialize : EGLDisplay → EGLBoolean × EGLint × EGLint
  eglBindAPI : Nat → EGLBoolean
  eglChooseConfig : EGLDisplay → List EGLint → EGLint → EGLBoolean × EGLConfig × EGLint
  eglCreateContext : EGLDisplay → EGLConfig → EGLContext → List EGLint → EGLContext
  eglCreatePbufferSurface : EGLDisplay → EGLConfig → List EGLint → EGLSurface
  eglCreateWindowSurface : EGLDisplay → EGLConfig → HWND → Ptr → EGLSurface
  eglMakeCurrent : EGLDisplay → EGLSurface → EGLSurface → EGLContext → EGLBoolean
  eglDestroyContext : EGLDisplay → EGLContext → EGLBoolean
  eglTerminate : EGLDisplay → EGLBoolean
  eglSwapInterval : EGLDisplay → EGLint → EGLBoolean
  eglSwapBuffers : EGLDisplay → EGLSurface → EGLBoolean
  eglGetError : Option Event → EGLint
  GetClientRect : HWND → Nat × RECT

/-- The typed heap: which object, if any, lives at an address. -/
structure Memory where
  device : Ptr → Option gs_device
  platform : Ptr → Option gl_platform
  swap_chain : Ptr → Option gs_swap_chain
  windowinfo : Ptr → Option gl_windowinfo

/-- The heap and the requests issued so far, oldest first. -/
structure State where
  mem : Memory
  trace : List Event

/-- Reading through a pointer: `none` for `NULL` and for an address that
holds no object. -/
def load {α : Type} (h : Ptr → Option α) (p : Ptr) : Option α :=
  if p = NULL then none else h p

/-- Appending one request to the trace. -/
def emit (s : State) (e : Event) : State :=
  { s with trace := s.trace ++ [e] }

/-- Writing `f` applied to the device at `p` back through the pointer `p`. -/
def store_device (s : State) (p : Ptr) (f : gs_device → gs_device) : Option State :=
  (load s.mem.device p).map fun d =>
    { s with mem := { s.mem with device := Function.update s.mem.device p (some (f d)) } }

/-- Writing `f` applied to the platform at `p` back through the pointer `p`. -/
def store_platform (s : State) (p : Ptr) (f : gl_platform → gl_platform) : Option State :=
  (load s.mem.platform p).map fun d =>
    { s with mem := { s.mem with platform := Function.update s.mem.platform p (some (f d)) } }

/-- Writing `f` applied to the window info at `p` back through the pointer `p`. -/
def store_windowinfo (s : State) (p : Ptr) (f : gl_windowinfo → gl_windowinfo) :
    Option State :=
  (load s.mem.windowinfo p).map fun d =>
    { s with mem := { s.mem with windowinfo := Function.update s.mem.windowinfo p (some (f d)) } }

/-! ## The functions of the file -/

/-- The function `get_egl_error_string` (lines 98-101). -/
def get_egl_error_string (E : Env) (s : State) : State × String :=
  let error := E.eglGetError s.trace.getLast?
  (emit s (.eglGetError error), get_egl_error_string2 error)

/-- The function `gl_clear_context` (lines 187-193). -/
def gl_clear_context (E : Env) (s : State) (device : Ptr) : Option State := do
  let dev ← load s.mem.device device
  let plat ← load s.mem.platform dev.plat
  let r := E.eglMakeCurrent plat.edisplay EGL_NO_SURFACE EGL_NO_SURFACE EGL_NO_CONTEXT
  let s := emit s (.eglMakeCurrent plat.edisplay EGL_NO_SURFACE EGL_NO_SURFACE EGL_NO_CONTEXT r)
  if r = 0 then
    pure (emit s (.blog .LOG_ERROR "Failed to reset current context." []))
  else
    pure s

/-- The function `device_enter_context` (lines 392-403). -/
def device_enter_context (E : Env) (s : State) (device : Ptr) : Option State := do
  let dev ← load s.mem.device device
  let plat ← load s.mem.platform dev.plat
  let context := plat.context
  let display := plat.edisplay
  let surface ←
    if dev.cur_swap ≠ NULL then do
      let swap ← load s.mem.swap_chain dev.cur_swap
      let wi ← load s.mem.windowinfo swap.wi
      pure wi.surface
    else
      pure plat.pbuffer
  let r := E.eglMakeCurrent display surface surface context
  let s := emit s (.eglMakeCurrent display surface surface context r)
  if r = 0 then
    let (s, str) := get_egl_error_string E s
    pure (emit s (.blog .LOG_ERROR "Failed to make context current: %s" [.str str]))
  else
    pure s

/-- The function `device_leave_context` (lines 405-419). -/
def device_leave_context (E : Env) (s : State) (device : Ptr) : Option State := do
  let s := emit s .glFlush
  let s ← store_device s device fun d => { d with cur_vertex_buffer := NULL }
  let s ← store_device s device fun d => { d with cur_index_buffer := NULL }
  let s ← store_device s device fun d => { d with cur_render_target := NULL }
  let s ← store_device s device fun d => { d with cur_zstencil_buffer := NULL }
  let s ← store_device s device fun d => { d with cur_swap := NULL }
  let s ← store_device s device fun d => { d with cur_fbo := NULL }
  let dev ← load s.mem.device device
  let plat ← load s.mem.platform dev.plat
  let r := E.eglMakeCurrent plat.edisplay EGL_NO_SURFACE EGL_NO_SURFACE EGL_NO_CONTEXT
  let s := emit s (.eglMakeCurrent plat.edisplay EGL_NO_SURFACE EGL_NO_SURFACE EGL_NO_CONTEXT r)
  if r = 0 then
    let (s, str) := get_egl_error_string E s
    pure (emit s (.blog .LOG_ERROR "Failed to reset current context: %s" [.str str]))
  else
    pure s

/-- The function `device_load_swapchain` (lines 426-434). -/
def device_load_swapchain (E : Env) (s : State) (device : Ptr) (swap : Ptr) :
    Option State := do
  let dev ← load s.mem.device device
  if dev.cur_swap = swap then
    pure s
  else
    let s ← store_device s device fun d => { d with cur_swap := swap }
    device_enter_context E s device

/-- The function `device_present` (lines 442-452). -/
def device_present (E : Env) (s : State) (device : Ptr) : Option State := do
  let dev ← load s.mem.device device
  let plat ← load s.mem.platform dev.plat
  let swap ← load s.mem.swap_chain dev.cur_swap
  let wi ← load s.mem.windowinfo swap.wi
  let r1 := E.eglSwapInterval plat.edisplay 0
  let s := emit s (.eglSwapInterval plat.edisplay 0 r1)
  let s := if r1 = EGL_FALSE then emit s (.blog .LOG_ERROR "eglSwapInterval failed" []) else s
  let r2 := E.eglSwapBuffers plat.edisplay wi.surface
  let s := emit s (.eglSwapBuffers plat.edisplay wi.surface r2)
  if r2 = EGL_FALSE then
    let (s, str) := get_egl_error_string E s
    pure (emit s (.blog .LOG_ERROR "eglSwapBuffers failed (%s)" [.str str]))
  else
    pure s

/-- The function `gl_platform_init_swapchain` (lines 351-370).  The second
component is the returned `bool`. -/
def gl_platform_init_swapchain (E : Env) (s : State) (swap : Ptr) :
    Option (State × Bool) := do
  let sw ← load s.mem.swap_chain swap
  let wi ← load s.mem.windowinfo sw.wi
  let win := wi.hwnd
  let dev ← load s.mem.device sw.device
  let plat ← load s.mem.platform dev.plat
  let surface := E.eglCreateWindowSurface plat.edisplay plat.config win 0
  let s := emit s (.eglCreateWindowSurface plat.edisplay plat.config win 0 surface)
  let (s, success) :=
    if EGL_NO_SURFACE = surface then
      let (s, str) := get_egl_error_string E s
      (emit s (.blog .LOG_ERROR "Cannot get window EGL surface: %s" [.str str]), false)
    else
      (s, true)
  if success then
    let s ← store_windowinfo s sw.wi fun w => { w with surface := surface }
    pure (s, success)
  else
    pure (s, success)

/-- The conversion of a `LONG` to `uint32_t`. -/
def to_uint32 (x : Int) : Nat := (x % 2 ^ 32).toNat

/-- The function `gl_getclientsize` (lines 454-466).  The result is the pair
written to `*width` and `*height`. -/
def gl_getclientsize (E : Env) (s : State) (swap : Ptr) : Option (State × Nat × Nat) :=
  if swap ≠ NULL then do
    let sw ← load s.mem.swap_chain swap
    let wi ← load s.mem.windowinfo sw.wi
    let r := E.GetClientRect wi.hwnd
    let rc := r.2
    let s := emit s (.GetClientRect wi.hwnd r.1 rc)
    pure (s, to_uint32 rc.right, to_uint32 rc.bottom)
  else
    pure (s, 0, 0)

/-- The label `error:` of `gl_context_create` reached with `success == false`
(lines 285-292): the context, if one was created, is destroyed, the display
is terminated, and `false` is returned. -/
def gl_context_create_error (E : Env) (s : State) (edisplay : EGLDisplay)
    (context : EGLContext) : State × Bool :=
  let s :=
    if EGL_NO_CONTEXT ≠ context then
      emit s (.eglDestroyContext edisplay context (E.eglDestroyContext edisplay context))
    else s
  let s := emit s (.eglTerminate edisplay (E.eglTerminate edisplay))
  (s, false)

/-- Lines 270-292 of `gl_context_create`, reached with a context that is not
`EGL_NO_CONTEXT`: the pbuffer is created and the platform filled in. -/
def gl_context_create_pbuffer (E : Env) (s : State) (plat : Ptr) (edisplay : EGLDisplay)
    (config : EGLConfig) (context : EGLContext) : Option (State × Bool) := do
  let pb := E.eglCreatePbufferSurface edisplay config ctx_pbuffer_attribs
  let s := emit s (.eglCreatePbufferSurface edisplay config ctx_pbuffer_attribs pb)
  let s ← store_platform s plat fun p => { p with pbuffer := pb }
  let p ← load s.mem.platform plat
  if EGL_NO_SURFACE = p.pbuffer then
    let (s, str) := get_egl_error_string E s
    let s := emit s (.blog .LOG_ERROR "Failed to create OpenGL pbuffer: %s" [.str str])
    pure (gl_context_create_error E s edisplay context)
  else
    let s ← store_platform s plat fun p => { p with edisplay := edisplay }
    let s ← store_platform s plat fun p => { p with config := config }
    let s ← store_platform s plat fun p => { p with context := context }
    let p ← load s.mem.platform plat
    let s := emit s (.blog .LOG_DEBUG "Created EGLDisplay %p" [.ptr p.edisplay])
    pure (s, true)

/-- Lines 245-292 of `gl_context_create`, reached with a chosen config. -/
def gl_context_create_context (E : Env) (s : State) (plat : Ptr) (edisplay : EGLDisplay)
    (config : EGLConfig) : Option (State × Bool) :=
  let context := E.eglCreateContext edisplay config EGL_NO_CONTEXT (ctx_attribs E.debug)
  let s := emit s (.eglCreateContext edisplay config EGL_NO_CONTEXT (ctx_attribs E.debug) context)
  if E.debug = true ∧ EGL_NO_CONTEXT = context then
    -- the `_DEBUG` block, lines 248-262
    let error := E.eglGetError s.trace.getLast?
    let s := emit s (.eglGetError error)
    if error = EGL_BAD_ATTRIBUTE then
      let s := emit s (.blog .LOG_ERROR
        "Unable to create EGL context with DEBUG attrib, trying without" [])
      let context :=
        E.eglCreateContext edisplay config EGL_NO_CONTEXT ((ctx_attribs E.debug).drop 2)
      let s := emit s (.eglCreateContext edisplay config EGL_NO_CONTEXT
        ((ctx_attribs E.debug).drop 2) context)
      if EGL_NO_CONTEXT = context then
        let (s, str) := get_egl_error_string E s
        let s := emit s (.blog .LOG_ERROR "Unable to create EGL context: %s" [.str str])
        some (gl_context_create_error E s edisplay context)
      else
        gl_context_create_pbuffer E s plat edisplay config context
    else
      let s := emit s (.blog .LOG_ERROR "Unable to create EGL context: %s"
        [.str (get_egl_error_string2 error)])
      some (gl_context_create_error E s edisplay context)
  else if EGL_NO_CONTEXT = context then
    let (s, str) := get_egl_error_string E s
    let s := emit s (.blog .LOG_ERROR "Unable to create EGL context: %s" [.str str])
    some (gl_context_create_error E s edisplay context)
  else
    gl_context_create_pbuffer E s plat edisplay config context

/-- The function `gl_context_create` (lines 201-293).  The second component
is the returned `bool`. -/
def gl_context_create (E : Env) (s : State) (plat : Ptr) : Option (State × Bool) :=
  let edisplay := E.eglGetPlatformDisplayEXT 0x3202 EGL_DEFAULT_DISPLAY display_args
  let s := emit s (.eglGetPlatformDisplayEXT 0x3202 EGL_DEFAULT_DISPLAY display_args edisplay)
  let s :=
    if E.debug = true then
      emit s (.eglDebugMessageControlKHR all_messages (E.eglDebugMessageControlKHR all_messages))
    else s
  if EGL_NO_DISPLAY = edisplay then
    some (emit s (.blog .LOG_ERROR "Failed to get EGL display using eglGetDisplay" []), false)
  else
    let r := E.eglInitialize edisplay
    let s := emit s (.eglInitialize edisplay r.1 r.2.1 r.2.2)
    if r.1 = 0 then
      let (s, str) := get_egl_error_string E s
      some (emit s (.blog .LOG_ERROR "Failed to initialize EGL: %s" [.str str]), false)
    else
      let s := emit s (.gladLoaderLoadEGL edisplay (E.gladLoaderLoadEGL edisplay))
      let s := emit s (.eglBindAPI EGL_OPENGL_ES_API (E.eglBindAPI EGL_OPENGL_ES_API))
      let c := E.eglChooseConfig edisplay ctx_config_attribs 1
      let config := c.2.1
      let s := emit s (.eglChooseConfig edisplay ctx_config_attribs 1 c.1 config c.2.2)
      if c.1 = 0 then
        let (s, str) := get_egl_error_string E s
        let s := emit s (.blog .LOG_ERROR "Unable to find suitable EGL config: %s" [.str str])
        some (gl_context_create_error E s edisplay EGL_NO_CONTEXT)
      else
        gl_context_create_context E s plat edisplay config

/-- The function `gl_context_destroy` (lines 295-300). -/
def gl_context_destroy (E : Env) (s : State) (plat : Ptr) : Option State := do
  let p ← load s.mem.platform plat
  let s := emit s (.eglMakeCurrent p.edisplay EGL_NO_SURFACE EGL_NO_SURFACE EGL_NO_CONTEXT
    (E.eglMakeCurrent p.edisplay EGL_NO_SURFACE EGL_NO_SURFACE EGL_NO_CONTEXT))
  let p ← load s.mem.platform plat
  pure (emit s (.eglDestroyContext p.edisplay p.context
    (E.eglDestroyContext p.edisplay p.context)))

/-- The labels `fail_context_create:` and `fail_load_gl:` of
`gl_platform_create` (lines 333-338): the block is freed and `NULL` returned. -/
def gl_platform_create_fail (s : State) (plat : Ptr) : State × Ptr :=
  let s := emit s (.bfree plat)
  let s := { s with mem := { s.mem with platform := Function.update s.mem.platform plat none } }
  (s, NULL)

/-- The function `gl_platform_create` (lines 302-339).  The second component
is the returned pointer. -/
def gl_platform_create (E : Env) (s : State) (device : Ptr) (_adapter : Nat) :
    Option (State × Ptr) := do
  let plat := E.bmalloc
  let s := emit s (.bmalloc plat)
  let s := { s with mem := { s.mem with
    platform := Function.update s.mem.platform plat (some E.fresh) } }
  let r := E.gladLoaderLoadEGL NULL
  let s := emit s (.gladLoaderLoadEGL NULL r)
  if r = 0 then
    let s := emit s (.blog .LOG_ERROR "Unable to load EGL entry functions." [])
    pure (gl_platform_create_fail s plat)
  else
    let s ← store_device s device fun d => { d with plat := plat }
    let (s, ok) ← gl_context_create E s plat
    if ok = false then
      let s := emit s (.blog .LOG_ERROR "Failed to create context!" [])
      pure (gl_platform_create_fail s plat)
    else
      let p ← load s.mem.platform plat
      let r := E.eglMakeCurrent p.edisplay p.pbuffer p.pbuffer p.context
      let s := emit s (.eglMakeCurrent p.edisplay p.pbuffer p.pbuffer p.context r)
      if r = 0 then
        let (s, str) := get_egl_error_string E s
        let s := emit s (.blog .LOG_ERROR "Failed to make context current: %s" [.str str])
        -- fail_make_current:
        let s ← gl_context_destroy E s plat
        pure (gl_platform_create_fail s plat)
      else
        let r := E.gladLoaderLoadGLES2
        let s := emit s (.gladLoaderLoadGLES2 r)
        if r = 0 then
          let s := emit s (.blog .LOG_ERROR "Failed to load OpenGL entry functions." [])
          -- goto fail_load_gl
          pure (gl_platform_create_fail s plat)
        else
          pure (s, plat)

/-- The function `gl_platform_destroy` (lines 341-349). -/
def gl_platform_destroy (E : Env) (s : State) (plat : Ptr) : Option State :=
  if plat = NULL then
    some s
  else do
    let s ← gl_context_destroy E s plat
    let p ← load s.mem.platform plat
    let s := emit s (.eglTerminate p.edisplay (E.eglTerminate p.edisplay))
    let s := emit s (.bfree plat)
    pure { s with mem := { s.mem with platform := Function.update s.mem.platform plat none } }

/-! ## Reading the trace -/

/-- The make-current requests among some events, oldest first: display, draw
surface, read surface, context. -/
def make_current_requests (es : List Event) :
    List (EGLDisplay × EGLSurface × EGLSurface × EGLContext) :=
  es.filterMap fun e =>
    match e with
    | .eglMakeCurrent d draw read ctx _ => some (d, draw, read, ctx)
    | _ => none

/-- The events `device_enter_context` appends when it targets `surface`: the
make-current request and, when it fails, the error query and the log line. -/
def enter_events (E : Env) (d : EGLDisplay) (surface : EGLSurface) (c : EGLContext) :
    List Event :=
  let mc := Event.eglMakeCurrent d surface surface c (E.eglMakeCurrent d surface surface c)
  if E.eglMakeCurrent d surface surface c = 0 then
    [mc, .eglGetError (E.eglGetError (some mc)),
      .blog .LOG_ERROR "Failed to make context current: %s"
        [.str (get_egl_error_string2 (E.eglGetError (some mc)))]]
  else [mc]

/-- The events `device_leave_context` appends: the flush, the request that
nothing be current on `d` and, when it fails, the error query and the log
line. -/
def leave_events (E : Env) (d : EGLDisplay) : List Event :=
  let mc := Event.eglMakeCurrent d EGL_NO_SURFACE EGL_NO_SURFACE EGL_NO_CONTEXT
    (E.eglMakeCurrent d EGL_NO_SURFACE EGL_NO_SURFACE EGL_NO_CONTEXT)
  if E.eglMakeCurrent d EGL_NO_SURFACE EGL_NO_SURFACE EGL_NO_CONTEXT = 0 then
    [.glFlush, mc, .eglGetError (E.eglGetError (some mc)),
      .blog .LOG_ERROR "Failed to reset current context: %s"
        [.str (get_egl_error_string2 (E.eglGetError (some mc)))]]
  else [.glFlush, mc]


/-- The events `device_present` appends: the swap-interval request, a log line
when it fails, the buffer swap and, when that fails, the error query and the
log line. -/
def present_events (E : Env) (d : EGLDisplay) (surface : EGLSurface) : List Event :=
  let si := Event.eglSwapInterval d 0 (E.eglSwapInterval d 0)
  let sb := Event.eglSwapBuffers d surface (E.eglSwapBuffers d surface)
  [si] ++ (if E.eglSwapInterval d 0 = EGL_FALSE then
      [.blog .LOG_ERROR "eglSwapInterval failed" []] else []) ++
    [sb] ++ (if E.eglSwapBuffers d surface = EGL_FALSE then
      [.eglGetError (E.eglGetError (some sb)),
        .blog .LOG_ERROR "eglSwapBuffers failed (%s)"
          [.str (get_egl_error_string2 (E.eglGetError (some sb)))]] else [])

/-- The EGL and Win32 requests among some events, the log lines and error
queries left out. -/
def requests (es : List Event) : List Event :=
  es.filter fun e =>
    match e with
    | .blog _ _ _ => false
    | .eglGetError _ => false
    | _ => true


/-! ## Naming the handles one run of `gl_context_create` obtains -/

/-- The display the request of line 211 returns. -/
def run_display (E : Env) : EGLDisplay :=
  E.eglGetPlatformDisplayEXT 0x3202 EGL_DEFAULT_DISPLAY display_args

/-- The config the request of lines 238-239 leaves in `config`. -/
def run_config (E : Env) : EGLConfig :=
  (E.eglChooseConfig (run_display E) ctx_config_attribs 1).2.1

/-- The first create-context request of a run (lines 245-246), with its
answer. -/
def first_create (E : Env) : Event :=
  .eglCreateContext (run_display E) (run_config E) EGL_NO_CONTEXT (ctx_attribs E.debug)
    (E.eglCreateContext (run_display E) (run_config E) EGL_NO_CONTEXT (ctx_attribs E.debug))

/-- Whether a run issues the second create-context request of lines 254-256:
only under `_DEBUG`, when the first returned `EGL_NO_CONTEXT` and the error
queried right after it is `EGL_BAD_ATTRIBUTE`. -/
def retries (E : Env) : Bool :=
  E.debug &&
    (decide (EGL_NO_CONTEXT =
      E.eglCreateContext (run_display E) (run_config E) EGL_NO_CONTEXT (ctx_attribs E.debug)) &&
     decide (E.eglGetError (some (first_create E)) = EGL_BAD_ATTRIBUTE))

/-- The context a run holds in `context` at line 264: the answer to the second
create-context request when there is one, to the first otherwise. -/
def run_context (E : Env) : EGLContext :=
  if retries E = true then
    E.eglCreateContext (run_display E) (run_config E) EGL_NO_CONTEXT
      ((ctx_attribs E.debug).drop 2)
  else
    E.eglCreateContext (run_display E) (run_config E) EGL_NO_CONTEXT (ctx_attribs E.debug)

/-- The surface the request of lines 270-271 returns. -/
def run_pbuffer (E : Env) : EGLSurface :=
  E.eglCreatePbufferSurface (run_display E) (run_config E) ctx_pbuffer_attribs

/-- The steps of `gl_platform_create` whose outcome the code checks. -/
inductive Step where
  | load_egl
  | get_display
  | init_display
  | choose_config
  | create_context
  | create_pbuffer
  | make_current
  | load_gles
deriving DecidableEq, Repr

/-- The checked step an event belongs to, if any.  `gladLoaderLoadEGL` with a
display (line 234) is not checked; with `NULL` (line 306) it is. -/
def checked_step : Event → Option Step
  | .gladLoaderLoadEGL d _ => if d = NULL then some .load_egl else none
  | .eglGetPlatformDisplayEXT _ _ _ _ => some .get_display
  | .eglInitialize _ _ _ _ => some .init_display
  | .eglChooseConfig _ _ _ _ _ _ => some .choose_config
  | .eglCreateContext _ _ _ _ _ => some .create_context
  | .eglCreatePbufferSurface _ _ _ _ => some .create_pbuffer
  | .eglMakeCurrent _ _ _ _ _ => some .make_current
  | .gladLoaderLoadGLES2 _ => some .load_gles
  | _ => none

/-- The contexts created among some events: the answers to create-context
requests other than `EGL_NO_CONTEXT`. -/
def created_contexts (es : List Event) : List EGLContext :=
  es.filterMap fun e =>
    match e with
    | .eglCreateContext _ _ _ _ c => if c = EGL_NO_CONTEXT then none else some c
    | _ => none

/-- The contexts some events ask to destroy. -/
def destroyed_contexts (es : List Event) : List EGLContext :=
  es.filterMap fun e =>
    match e with
    | .eglDestroyContext _ c _ => some c
    | _ => none

/-- Every step of `gl_platform_create` succeeds, in the order of the source:
the EGL loader, the display, its initialisation, the config, the context, the
pbuffer, making the context current on the pbuffer, the GLES loader. -/
def all_steps_succeed (E : Env) : Prop :=
  E.gladLoaderLoadEGL NULL ≠ 0 ∧
  run_display E ≠ EGL_NO_DISPLAY ∧
  (E.eglInitialize (run_display E)).1 ≠ 0 ∧
  (E.eglChooseConfig (run_display E) ctx_config_attribs 1).1 ≠ 0 ∧
  run_context E ≠ EGL_NO_CONTEXT ∧
  run_pbuffer E ≠ EGL_NO_SURFACE ∧
  E.eglMakeCurrent (run_display E) (run_pbuffer E) (run_pbuffer E) (run_context E) ≠ 0 ∧
  E.gladLoaderLoadGLES2 ≠ 0

/-- The steps of `gl_context_create` succeed. -/
def context_steps_succeed (E : Env) : Prop :=
  run_display E ≠ EGL_NO_DISPLAY ∧
  (E.eglInitialize (run_display E)).1 ≠ 0 ∧
  (E.eglChooseConfig (run_display E) ctx_config_attribs 1).1 ≠ 0 ∧
  run_context E ≠ EGL_NO_CONTEXT ∧
  run_pbuffer E ≠ EGL_NO_SURFACE

/-- The events of a successful run of `gl_context_create` name the handles the
platform ends up with. -/
def records_handles (rest : List Event) (p : gl_platform) : Prop :=
  (∃ pl nat att, Event.eglGetPlatformDisplayEXT pl nat att p.edisplay ∈ rest) ∧
  (∃ att n r num, r ≠ 0 ∧ Event.eglChooseConfig p.edisplay att n r p.config num ∈ rest) ∧
  (∃ share att, Event.eglCreateContext p.edisplay p.config share att p.context ∈ rest) ∧
  (∃ att, Event.eglCreatePbufferSurface p.edisplay p.config att p.pbuffer ∈ rest)

/-- The GLES loader fails after every earlier step of `gl_platform_create`
succeeded. -/
def only_gles_fails (E : Env) : Prop :=
  E.gladLoaderLoadEGL NULL ≠ 0 ∧ context_steps_succeed E ∧
  E.eglMakeCurrent (run_display E) (run_pbuffer E) (run_pbuffer E) (run_context E) ≠ 0 ∧
  E.gladLoaderLoadGLES2 = 0

/-! ## A concrete world and heap, for evaluating the functions -/

/-- A world in which every request succeeds. -/
def demo_env : Env :=
  { debug := false, bmalloc := 7, fresh := ⟨0, 0, 0, 0⟩,
    gladLoaderLoadEGL := fun _ => 1, gladLoaderLoadGLES2 := 1,
    eglGetPlatformDisplayEXT := fun _ _ _ => 11,
    eglDebugMessageControlKHR := fun _ => 0x3000,
    eglInitialize := fun _ => (1, 1, 5),
    eglBindAPI := fun _ => 1,
    eglChooseConfig := fun _ _ _ => (1, 12, 1),
    eglCreateContext := fun _ _ _ _ => 13,
    eglCreatePbufferSurface := fun _ _ _ => 14,
    eglCreateWindowSurface := fun _ _ w _ => 100 + w,
    eglMakeCurrent := fun _ _ _ _ => 1,
    eglDestroyContext := fun _ _ => 1,
    eglTerminate := fun _ => 1,
    eglSwapInterval := fun _ _ => 1,
    eglSwapBuffers := fun _ _ => 1,
    eglGetError := fun _ => 0x3000,
    GetClientRect := fun _ => (1, ⟨0, 0, 640, 480⟩) }

/-- The device of `demo_mem`, at address `1`: its platform is at `2`, its
current swap chain at `3`. -/
def demo_device : gs_device := ⟨2, 21, 22, 23, 24, 3, 26, 99⟩

/-- The platform of `demo_mem`, at address `2`. -/
def demo_platform : gl_platform := ⟨11, 12, 13, 14⟩

/-- The swap chain of `demo_mem`, at address `3`: it belongs to the device at
`1` and its window info is at `4`. -/
def demo_swap : gs_swap_chain := ⟨1, 4, 0⟩

/-- The window info of `demo_mem`, at address `4`. -/
def demo_wi : gl_windowinfo := ⟨55, 155⟩

/-- A heap with one device, its platform, and one swap chain with its window
info. -/
def demo_mem : Memory :=
  { device := fun p => if p = 1 then some demo_device else none,
    platform := fun p => if p = 2 then some demo_platform else none,
    swap_chain := fun p => if p = 3 then some demo_swap else none,
    windowinfo := fun p => if p = 4 then some demo_wi else none }

/-- The heap `demo_mem` with an empty trace. -/
def demo_state : State := ⟨demo_mem, []⟩


/-- The world `demo_env` with a GLES loader that fails. -/
def gles_fail_env : Env := { demo_env with gladLoaderLoadGLES2 := 0 }

/-- The heap `demo_mem` before any platform exists: the device at `1` has no
platform and no swap chain loaded. -/
def fresh_state : State :=
  ⟨{ demo_mem with
      device := fun p => if p = 1 then some ⟨0, 0, 0, 0, 0, 0, 0, 99⟩ else none
      platform := fun _ => none }, []⟩


/-- The heap of `fresh_state` with an uninitialised platform block at `7`. -/
def alloc_state : State :=
  ⟨{ fresh_state.mem with platform := fun p => if p = 7 then some ⟨0, 0, 0, 0⟩ else none }, []⟩


/-! ## Theorems -/

/-! ### Lemmas on the heap and the trace -/

theorem load_update_same {α : Type} (h : Ptr → Option α) (p : Ptr) (v : Option α)
    (hp : p ≠ NULL) : load (Function.update h p v) p = v := by
  simp [load, hp]

theorem load_some_ne_null {α : Type} {h : Ptr → Option α} {p : Ptr} {v : α}
    (hv : load h p = some v) : p ≠ NULL := by
  intro hp
  simp [load, hp] at hv

theorem load_some_eq {α : Type} {h : Ptr → Option α} {p : Ptr} {v : α}
    (hv : load h p = some v) : h p = some v := by
  have hp := load_some_ne_null hv
  simpa [load, hp] using hv

theorem make_current_requests_enter_events (E : Env) (d : EGLDisplay) (surface : EGLSurface)
    (c : EGLContext) :
    make_current_requests (enter_events E d surface c) = [(d, surface, surface, c)] := by
  unfold enter_events
  split_ifs <;> simp [make_current_requests]

theorem device_enter_context_null (E : Env) (s : State) (device : Ptr) (dev : gs_device)
    (plat : gl_platform)
    (hdev : load s.mem.device device = some dev)
    (hplat : load s.mem.platform dev.plat = some plat)
    (hswap : dev.cur_swap = NULL) :
    device_enter_context E s device =
      some { s with trace := s.trace ++ enter_events E plat.edisplay plat.pbuffer plat.context } := by
  unfold device_enter_context
  simp [hdev, hplat, hswap, enter_events, emit, get_egl_error_string]
  split_ifs <;> simp

theorem device_enter_context_swap (E : Env) (s : State) (device : Ptr) (dev : gs_device)
    (plat : gl_platform) (swap : gs_swap_chain) (wi : gl_windowinfo)
    (hdev : load s.mem.device device = some dev)
    (hplat : load s.mem.platform dev.plat = some plat)
    (hswap : load s.mem.swap_chain dev.cur_swap = some swap)
    (hwi : load s.mem.windowinfo swap.wi = some wi) :
    device_enter_context E s device =
      some { s with trace := s.trace ++ enter_events E plat.edisplay wi.surface plat.context } := by
  have hne : dev.cur_swap ≠ NULL := load_some_ne_null hswap
  unfold device_enter_context
  simp [hdev, hplat, hswap, hwi, hne, enter_events, emit, get_egl_error_string]
  split_ifs <;> simp

/-- C1. For a device whose pointers are valid, `device_enter_context` returns,
leaves the heap as it was, and appends to the trace exactly one make-current
request: on the platform's display, with the platform's context, and with one
surface as draw and read surface, the window surface of the current swap
chain when `cur_swap` is not `NULL` and the pbuffer when it is.  The request
is the first event appended, whatever the world answers to it. -/
theorem device_enter_context_request (E : Env) (s : State) (device : Ptr) (dev : gs_device)
    (plat : gl_platform) (swap : gs_swap_chain) (wi : gl_windowinfo) (surface : EGLSurface)
    (hdev : load s.mem.device device = some dev)
    (hplat : load s.mem.platform dev.plat = some plat)
    (hswap : dev.cur_swap ≠ NULL →
      load s.mem.swap_chain dev.cur_swap = some swap ∧ load s.mem.windowinfo swap.wi = some wi)
    (hsurface : surface = if dev.cur_swap ≠ NULL then wi.surface else plat.pbuffer) :
    ∃ s1 rest, device_enter_context E s device = some s1 ∧
      s1.mem = s.mem ∧
      s1.trace = s.trace ++ rest ∧
      rest.head? = some (Event.eglMakeCurrent plat.edisplay surface surface plat.context
        (E.eglMakeCurrent plat.edisplay surface surface plat.context)) ∧
      make_current_requests rest = [(plat.edisplay, surface, surface, plat.context)] := by
  by_cases hc : dev.cur_swap = NULL
  · have hs : surface = plat.pbuffer := by simp [hsurface, hc]
    refine ⟨_, _, device_enter_context_null E s device dev plat hdev hplat hc, rfl, rfl, ?_, ?_⟩
    · rw [hs]; unfold enter_events; split_ifs <;> rfl
    · rw [hs]; exact make_current_requests_enter_events E _ _ _
  · have hs : surface = wi.surface := by simp [hsurface, hc]
    obtain ⟨h1, h2⟩ := hswap hc
    refine ⟨_, _, device_enter_context_swap E s device dev plat swap wi hdev hplat h1 h2,
      rfl, rfl, ?_, ?_⟩
    · rw [hs]; unfold enter_events; split_ifs <;> rfl
    · rw [hs]; exact make_current_requests_enter_events E _ _ _

/-- C1 at the demo heap, whose device has a current swap chain: the request
targets the window surface `155`. -/
theorem device_enter_context_request_witness :
    ∃ s1 rest, device_enter_context demo_env demo_state 1 = some s1 ∧
      s1.mem = demo_state.mem ∧
      s1.trace = demo_state.trace ++ rest ∧
      rest.head? = some (Event.eglMakeCurrent 11 155 155 13 (demo_env.eglMakeCurrent 11 155 155 13)) ∧
      make_current_requests rest = [(11, 155, 155, 13)] :=
  device_enter_context_request demo_env demo_state 1 demo_device demo_platform demo_swap demo_wi
    155 rfl rfl (fun _ => ⟨rfl, rfl⟩) rfl

theorem store_device_eq (s : State) (p : Ptr) (f : gs_device → gs_device) (d : gs_device)
    (hd : load s.mem.device p = some d) :
    store_device s p f = some { s with mem := { s.mem with
      device := Function.update s.mem.device p (some (f d)) } } := by
  simp [store_device, hd]

/-- C7. For a device whose pointers are valid and a `swap` that is `NULL` or a
valid swap chain, `device_load_swapchain` returns; afterwards the device is
the old one with `cur_swap = swap` and nothing else in the heap differs.  If
`cur_swap` already was `swap` the state is unchanged, so no request is issued;
otherwise the events appended are those of `device_enter_context` for the new
target, with exactly one make-current request: the window surface of `swap`,
or the pbuffer when `swap` is `NULL`.  A second call with the same `swap`
returns the state of the first unchanged. -/
theorem device_load_swapchain_spec (E : Env) (s : State) (device swap : Ptr)
    (dev : gs_device) (plat : gl_platform) (sw : gs_swap_chain) (wi : gl_windowinfo)
    (surface : EGLSurface)
    (hdev : load s.mem.device device = some dev)
    (hplat : load s.mem.platform dev.plat = some plat)
    (hswap : swap ≠ NULL →
      load s.mem.swap_chain swap = some sw ∧ load s.mem.windowinfo sw.wi = some wi)
    (hsurface : surface = if swap ≠ NULL then wi.surface else plat.pbuffer) :
    ∃ s1, device_load_swapchain E s device swap = some s1 ∧
      load s1.mem.device device = some { dev with cur_swap := swap } ∧
      s1.mem = { s.mem with
        device := Function.update s.mem.device device (some { dev with cur_swap := swap }) } ∧
      (dev.cur_swap = swap → s1 = s) ∧
      (dev.cur_swap ≠ swap →
        s1.trace = s.trace ++ enter_events E plat.edisplay surface plat.context ∧
        make_current_requests (enter_events E plat.edisplay surface plat.context) =
          [(plat.edisplay, surface, surface, plat.context)]) ∧
      device_load_swapchain E s1 device swap = some s1 := by
  have hnn : device ≠ NULL := load_some_ne_null hdev
  by_cases heq : dev.cur_swap = swap
  · have hself : ({ dev with cur_swap := swap } : gs_device) = dev := by
      cases dev; simp_all
    have hrun : device_load_swapchain E s device swap = some s := by
      simp [device_load_swapchain, hdev, heq]
    refine ⟨s, hrun, ?_, ?_, fun _ => rfl, fun h => absurd heq h, hrun⟩
    · rw [hself]; exact hdev
    · rw [hself, ← load_some_eq hdev, Function.update_eq_self]
  · let s0 : State := { s with mem := { s.mem with
      device := Function.update s.mem.device device (some { dev with cur_swap := swap }) } }
    have hdev0 : load s0.mem.device device = some { dev with cur_swap := swap } :=
      load_update_same _ _ _ hnn
    have henter : device_enter_context E s0 device =
        some { s0 with trace := s0.trace ++ enter_events E plat.edisplay surface plat.context } := by
      by_cases hs : swap = NULL
      · have hsurf : surface = plat.pbuffer := by simp [hsurface, hs]
        rw [hsurf]
        exact device_enter_context_null E s0 device _ plat hdev0 hplat hs
      · have hsurf : surface = wi.surface := by simp [hsurface, hs]
        obtain ⟨h1, h2⟩ := hswap hs
        rw [hsurf]
        exact device_enter_context_swap E s0 device _ plat sw wi hdev0 hplat h1 h2
    have hrun : device_load_swapchain E s device swap =
        some { s0 with trace := s0.trace ++ enter_events E plat.edisplay surface plat.context } := by
      rw [← henter]
      simp [device_load_swapchain, hdev, heq, store_device, s0]
    refine ⟨_, hrun, hdev0, rfl, fun h => absurd h heq,
      fun _ => ⟨rfl, make_current_requests_enter_events E _ _ _⟩, ?_⟩
    show device_load_swapchain E
      { s0 with trace := s0.trace ++ enter_events E plat.edisplay surface plat.context }
      device swap = _
    unfold device_load_swapchain
    have hdev1 : load s0.mem.device device = some { dev with cur_swap := swap } := hdev0
    simp [hdev1]

/-- C7 at the demo heap after its swap chain was unloaded: loading the swap
chain at `3` issues one request for its window surface `155`. -/
theorem device_load_swapchain_spec_witness :
    ∃ s1, device_load_swapchain demo_env
        ⟨{ demo_mem with device := fun p =>
            if p = 1 then some { demo_device with cur_swap := NULL } else none }, []⟩ 1 3 =
          some s1 ∧
      load s1.mem.device 1 = some demo_device ∧
      make_current_requests s1.trace = [(11, 155, 155, 13)] ∧
      device_load_swapchain demo_env s1 1 3 = some s1 := by
  obtain ⟨s1, h1, h2, _, _, h5, h6⟩ := device_load_swapchain_spec demo_env
    ⟨{ demo_mem with device := fun p =>
        if p = 1 then some { demo_device with cur_swap := NULL } else none }, []⟩ 1 3
    { demo_device with cur_swap := NULL } demo_platform demo_swap demo_wi 155
    rfl rfl (fun _ => ⟨rfl, rfl⟩) rfl
  refine ⟨s1, h1, h2, ?_, h6⟩
  obtain ⟨h7, h8⟩ := h5 (by decide)
  rw [h7]
  exact h8

/-- The events `device_leave_context` appends: the flush, the request that
nothing be current and, when it fails, the error query and the log line. -/
theorem device_leave_context_eq (E : Env) (s : State) (device : Ptr) (dev : gs_device)
    (plat : gl_platform)
    (hdev : load s.mem.device device = some dev)
    (hplat : load s.mem.platform dev.plat = some plat) :
    device_leave_context E s device = some
      ⟨{ s.mem with
          device := Function.update s.mem.device device
            (some ⟨dev.plat, NULL, NULL, NULL, NULL, NULL, NULL, dev.rest⟩) },
        s.trace ++ leave_events E plat.edisplay⟩ := by
  have hnn : device ≠ NULL := load_some_ne_null hdev
  unfold device_leave_context
  simp [store_device, emit, hdev, hplat, load_update_same, hnn, get_egl_error_string,
    leave_events]
  split_ifs <;> simp

theorem make_current_requests_leave_events (E : Env) (d : EGLDisplay) :
    make_current_requests (leave_events E d) =
      [(d, EGL_NO_SURFACE, EGL_NO_SURFACE, EGL_NO_CONTEXT)] := by
  unfold leave_events
  split_ifs <;> simp [make_current_requests]

/-- C8. For a device whose `plat` pointer is valid, `device_leave_context`
returns; afterwards the device has its six `cur_` members `NULL` and keeps
`plat` and `rest`, and nothing else in the heap differs (the platform heap in
particular).  The events appended are the flush and then exactly one
make-current request, for no surface and no context on the platform's
display, whatever the world answers.  A `device_enter_context` that follows
returns and issues exactly one make-current request, which targets the
pbuffer. -/
theorem device_leave_context_spec (E : Env) (s : State) (device : Ptr) (dev : gs_device)
    (plat : gl_platform)
    (hdev : load s.mem.device device = some dev)
    (hplat : load s.mem.platform dev.plat = some plat) :
    ∃ s1, device_leave_context E s device = some s1 ∧
      load s1.mem.device device =
        some ⟨dev.plat, NULL, NULL, NULL, NULL, NULL, NULL, dev.rest⟩ ∧
      (∀ p, p ≠ device → s1.mem.device p = s.mem.device p) ∧
      s1.mem.platform = s.mem.platform ∧
      s1.mem.swap_chain = s.mem.swap_chain ∧
      s1.mem.windowinfo = s.mem.windowinfo ∧
      s1.trace = s.trace ++ leave_events E plat.edisplay ∧
      (leave_events E plat.edisplay).head? = some Event.glFlush ∧
      make_current_requests (leave_events E plat.edisplay) =
        [(plat.edisplay, EGL_NO_SURFACE, EGL_NO_SURFACE, EGL_NO_CONTEXT)] ∧
      ∃ s2, device_enter_context E s1 device = some s2 ∧
        s2.mem = s1.mem ∧
        s2.trace = s1.trace ++ enter_events E plat.edisplay plat.pbuffer plat.context ∧
        make_current_requests (enter_events E plat.edisplay plat.pbuffer plat.context) =
          [(plat.edisplay, plat.pbuffer, plat.pbuffer, plat.context)] := by
  have hnn : device ≠ NULL := load_some_ne_null hdev
  refine ⟨_, device_leave_context_eq E s device dev plat hdev hplat,
    load_update_same _ _ _ hnn, fun p hp => Function.update_noteq hp _ _, rfl, rfl, rfl, rfl,
    ?_, make_current_requests_leave_events E _, ?_⟩
  · unfold leave_events; split_ifs <;> rfl
  · refine ⟨_, device_enter_context_null E _ device
      ⟨dev.plat, NULL, NULL, NULL, NULL, NULL, NULL, dev.rest⟩ plat
      (load_update_same _ _ _ hnn) hplat rfl, rfl, rfl,
      make_current_requests_enter_events E _ _ _⟩

/-- C8 at the demo heap, whose device has the swap chain at `3` loaded: after
leaving, the device at `1` has no current swap chain and entering targets the
pbuffer `14`. -/
theorem device_leave_context_spec_witness :
    ∃ s1, device_leave_context demo_env demo_state 1 = some s1 ∧
      load s1.mem.device 1 = some ⟨2, NULL, NULL, NULL, NULL, NULL, NULL, 99⟩ ∧
      ∃ s2, device_enter_context demo_env s1 1 = some s2 ∧
        make_current_requests (enter_events demo_env 11 14 13) = [(11, 14, 14, 13)] := by
  obtain ⟨s1, h1, h2, _, _, _, _, _, _, _, s2, h3, _, _, h4⟩ :=
    device_leave_context_spec demo_env demo_state 1 demo_device demo_platform rfl rfl
  exact ⟨s1, h1, h2, s2, h3, h4⟩

/-- C4. For a device whose pointers are valid and whose `cur_swap` points to a
swap chain, `device_present` returns and leaves the heap as it was.  The
requests it issues are, in order, swap interval `0` on the platform's display
and a buffer swap of the current swap chain's window surface on that display;
both are issued whatever the world answers to them, and besides them only
error queries and log lines are appended. -/
theorem device_present_spec (E : Env) (s : State) (device : Ptr) (dev : gs_device)
    (plat : gl_platform) (swap : gs_swap_chain) (wi : gl_windowinfo)
    (hdev : load s.mem.device device = some dev)
    (hplat : load s.mem.platform dev.plat = some plat)
    (hswap : load s.mem.swap_chain dev.cur_swap = some swap)
    (hwi : load s.mem.windowinfo swap.wi = some wi) :
    ∃ s1, device_present E s device = some s1 ∧
      s1.mem = s.mem ∧
      s1.trace = s.trace ++ present_events E plat.edisplay wi.surface ∧
      requests (present_events E plat.edisplay wi.surface) =
        [Event.eglSwapInterval plat.edisplay 0 (E.eglSwapInterval plat.edisplay 0),
         Event.eglSwapBuffers plat.edisplay wi.surface
           (E.eglSwapBuffers plat.edisplay wi.surface)] := by
  refine ⟨⟨s.mem, s.trace ++ present_events E plat.edisplay wi.surface⟩, ?_, rfl, rfl, ?_⟩
  · unfold device_present
    simp [hdev, hplat, hswap, hwi, emit, get_egl_error_string, present_events]
    split_ifs <;> simp
  · unfold present_events requests
    split_ifs <;> simp

/-- C4 at the demo heap: the swap interval and the swap of window surface
`155` are requested on display `11`. -/
theorem device_present_spec_witness :
    ∃ s1, device_present demo_env demo_state 1 = some s1 ∧
      s1.mem = demo_state.mem ∧
      s1.trace = demo_state.trace ++ present_events demo_env 11 155 ∧
      requests (present_events demo_env 11 155) =
        [Event.eglSwapInterval 11 0 (demo_env.eglSwapInterval 11 0),
         Event.eglSwapBuffers 11 155 (demo_env.eglSwapBuffers 11 155)] :=
  device_present_spec demo_env demo_state 1 demo_device demo_platform demo_swap demo_wi
    rfl rfl rfl rfl

/-- C2. For a swap chain whose pointers are valid, `gl_platform_init_swapchain`
returns.  It requests one window surface, for the swap chain's own window on
the display and config of its device's platform, and returns `true` exactly
when the surface it got is not `EGL_NO_SURFACE`.  On success the window info
holds that surface and its `hwnd` is kept; on failure the heap is unchanged.
In both cases nothing but that window info differs in the heap. -/
theorem gl_platform_init_swapchain_spec (E : Env) (s : State) (swap : Ptr)
    (sw : gs_swap_chain) (wi : gl_windowinfo) (dev : gs_device) (plat : gl_platform)
    (surface : EGLSurface)
    (hsw : load s.mem.swap_chain swap = some sw)
    (hwi : load s.mem.windowinfo sw.wi = some wi)
    (hdev : load s.mem.device sw.device = some dev)
    (hplat : load s.mem.platform dev.plat = some plat)
    (hsurface : surface = E.eglCreateWindowSurface plat.edisplay plat.config wi.hwnd 0) :
    ∃ s1 ok rest, gl_platform_init_swapchain E s swap = some (s1, ok) ∧
      (ok = true ↔ surface ≠ EGL_NO_SURFACE) ∧
      s1.trace = s.trace ++ rest ∧
      requests rest =
        [Event.eglCreateWindowSurface plat.edisplay plat.config wi.hwnd 0 surface] ∧
      (ok = true → load s1.mem.windowinfo sw.wi = some ⟨wi.hwnd, surface⟩) ∧
      (ok = false → s1.mem = s.mem) ∧
      (∀ p, p ≠ sw.wi → s1.mem.windowinfo p = s.mem.windowinfo p) ∧
      s1.mem.platform = s.mem.platform ∧
      s1.mem.device = s.mem.device ∧
      s1.mem.swap_chain = s.mem.swap_chain := by
  have hnn : sw.wi ≠ NULL := load_some_ne_null hwi
  subst hsurface
  by_cases hs : EGL_NO_SURFACE = E.eglCreateWindowSurface plat.edisplay plat.config wi.hwnd 0
  · let cws := Event.eglCreateWindowSurface plat.edisplay plat.config wi.hwnd 0
      (E.eglCreateWindowSurface plat.edisplay plat.config wi.hwnd 0)
    refine ⟨⟨s.mem, s.trace ++ [cws, .eglGetError (E.eglGetError (some cws)),
        .blog .LOG_ERROR "Cannot get window EGL surface: %s"
          [.str (get_egl_error_string2 (E.eglGetError (some cws)))]]⟩, false, _,
      ?_, ?_, rfl, ?_, ?_, fun _ => rfl, fun _ _ => rfl, rfl, rfl, rfl⟩
    · unfold gl_platform_init_swapchain
      simp [hsw, hwi, hdev, hplat, hs.symm, emit, get_egl_error_string, cws]
    · simp [hs.symm]
    · simp [requests, cws]
    · simp
  · refine ⟨⟨{ s.mem with
          windowinfo := Function.update s.mem.windowinfo sw.wi (some ⟨wi.hwnd,
            E.eglCreateWindowSurface plat.edisplay plat.config wi.hwnd 0⟩) },
        s.trace ++ [Event.eglCreateWindowSurface plat.edisplay plat.config wi.hwnd 0
          (E.eglCreateWindowSurface plat.edisplay plat.config wi.hwnd 0)]⟩, true, _,
      ?_, ?_, rfl, ?_, ?_, ?_, ?_, rfl, rfl, rfl⟩
    · unfold gl_platform_init_swapchain
      simp [hsw, hwi, hdev, hplat, hs, emit, store_windowinfo]
    · simpa using fun h => hs h.symm
    · simp [requests]
    · intro _; exact load_update_same _ _ _ hnn
    · simp
    · intro p hp; exact Function.update_noteq hp _ _

/-- C2 at the demo heap: the swap chain at `3` gets the window surface the
world returns for its window `55`. -/
theorem gl_platform_init_swapchain_spec_witness :
    ∃ s1 ok rest, gl_platform_init_swapchain demo_env demo_state 3 = some (s1, ok) ∧
      (ok = true ↔ (155 : EGLSurface) ≠ EGL_NO_SURFACE) ∧
      s1.trace = demo_state.trace ++ rest ∧
      requests rest = [Event.eglCreateWindowSurface 11 12 55 0 155] ∧
      (ok = true → load s1.mem.windowinfo 4 = some ⟨55, 155⟩) ∧
      (ok = false → s1.mem = demo_state.mem) ∧
      (∀ p, p ≠ 4 → s1.mem.windowinfo p = demo_state.mem.windowinfo p) ∧
      s1.mem.platform = demo_state.mem.platform ∧
      s1.mem.device = demo_state.mem.device ∧
      s1.mem.swap_chain = demo_state.mem.swap_chain :=
  gl_platform_init_swapchain_spec demo_env demo_state 3 demo_swap demo_wi demo_device
    demo_platform 155 rfl rfl rfl rfl rfl

/-- C5. `gl_getclientsize` returns for `NULL` and for every valid swap chain,
and never changes the heap.  For `NULL` it writes width `0` and height `0`
and requests nothing.  For a swap chain it asks for the client rectangle of
the swap chain's own window and writes the rectangle's `right` as width and
its `bottom` as height, each reduced modulo `2 ^ 32`. -/
theorem gl_getclientsize_spec (E : Env) (s : State) (swap : Ptr) (sw : gs_swap_chain)
    (wi : gl_windowinfo)
    (hswap : swap ≠ NULL →
      load s.mem.swap_chain swap = some sw ∧ load s.mem.windowinfo sw.wi = some wi) :
    ∃ s1 width height, gl_getclientsize E s swap = some (s1, width, height) ∧
      s1.mem = s.mem ∧
      (swap = NULL → width = 0 ∧ height = 0 ∧ s1.trace = s.trace) ∧
      (swap ≠ NULL →
        (width : Int) = (E.GetClientRect wi.hwnd).2.right % 2 ^ 32 ∧
        (height : Int) = (E.GetClientRect wi.hwnd).2.bottom % 2 ^ 32 ∧
        s1.trace = s.trace ++
          [Event.GetClientRect wi.hwnd (E.GetClientRect wi.hwnd).1 (E.GetClientRect wi.hwnd).2]) := by
  by_cases hs : swap = NULL
  · refine ⟨s, 0, 0, ?_, rfl, fun _ => ⟨rfl, rfl, rfl⟩, fun h => absurd hs h⟩
    simp [gl_getclientsize, hs]
  · obtain ⟨h1, h2⟩ := hswap hs
    refine ⟨emit s (Event.GetClientRect wi.hwnd (E.GetClientRect wi.hwnd).1
        (E.GetClientRect wi.hwnd).2), to_uint32 (E.GetClientRect wi.hwnd).2.right,
      to_uint32 (E.GetClientRect wi.hwnd).2.bottom, ?_, ?_, fun h => absurd h hs,
      fun _ => ⟨?_, ?_, ?_⟩⟩
    · simp [gl_getclientsize, hs, h1, h2]
    · rfl
    · exact Int.toNat_of_nonneg (Int.emod_nonneg _ (by norm_num))
    · exact Int.toNat_of_nonneg (Int.emod_nonneg _ (by norm_num))
    · rfl

/-- C5 at the demo heap: the window `55` of the swap chain at `3` reports a
`640` by `480` client rectangle. -/
theorem gl_getclientsize_spec_witness :
    ∃ s1 width height, gl_getclientsize demo_env demo_state 3 = some (s1, width, height) ∧
      (width : Int) = 640 ∧ (height : Int) = 480 := by
  obtain ⟨s1, w, h, h1, _, _, h4⟩ :=
    gl_getclientsize_spec demo_env demo_state 3 demo_swap demo_wi (fun _ => ⟨rfl, rfl⟩)
  obtain ⟨hw, hh, _⟩ := h4 (by decide)
  exact ⟨s1, w, h, h1, by rw [hw]; decide, by rw [hh]; decide⟩

theorem ne_of_outside (e c : Int) (h : e < 0x3000 ∨ 0x300E < e)
    (hc : 0x3000 ≤ c ∧ c ≤ 0x300E) : e ≠ c := by omega

theorem get_egl_error_string2_outside (e : Int) (h : e < 0x3000 ∨ 0x300E < e) :
    get_egl_error_string2 e = "Unknown" := by
  unfold get_egl_error_string2
  rw [if_neg (ne_of_outside e _ h (by decide)), if_neg (ne_of_outside e _ h (by decide)),
    if_neg (ne_of_outside e _ h (by decide)), if_neg (ne_of_outside e _ h (by decide)),
    if_neg (ne_of_outside e _ h (by decide)), if_neg (ne_of_outside e _ h (by decide)),
    if_neg (ne_of_outside e _ h (by decide)), if_neg (ne_of_outside e _ h (by decide)),
    if_neg (ne_of_outside e _ h (by decide)), if_neg (ne_of_outside e _ h (by decide)),
    if_neg (ne_of_outside e _ h (by decide)), if_neg (ne_of_outside e _ h (by decide)),
    if_neg (ne_of_outside e _ h (by decide)), if_neg (ne_of_outside e _ h (by decide)),
    if_neg (ne_of_outside e _ h (by decide))]

theorem get_egl_error_string2_inside (e : Int) (h1 : 0x3000 ≤ e) (h2 : e ≤ 0x300E) :
    get_egl_error_string2 e ≠ "Unknown" := by
  interval_cases e <;> decide

theorem get_egl_error_string2_distinct (a b : Int) (ha1 : 0x3000 ≤ a) (ha2 : a ≤ 0x300E)
    (hb1 : 0x3000 ≤ b) (hb2 : b ≤ 0x300E) (hab : a ≠ b) :
    get_egl_error_string2 a ≠ get_egl_error_string2 b := by
  interval_cases a <;> interval_cases b <;> first
    | exact absurd rfl hab
    | decide

/-- C6. `get_egl_error_string2` maps each of the fifteen EGL error codes to its
own identifier, the fifteen codes are the integers `0x3000` to `0x300E`,
distinct codes in that range give distinct strings, and the result is
`"Unknown"` exactly for the integers outside that range. -/
theorem get_egl_error_string2_spec :
    (get_egl_error_string2 EGL_SUCCESS = "EGL_SUCCESS" ∧
      get_egl_error_string2 EGL_NOT_INITIALIZED = "EGL_NOT_INITIALIZED" ∧
      get_egl_error_string2 EGL_BAD_ACCESS = "EGL_BAD_ACCESS" ∧
      get_egl_error_string2 EGL_BAD_ALLOC = "EGL_BAD_ALLOC" ∧
      get_egl_error_string2 EGL_BAD_ATTRIBUTE = "EGL_BAD_ATTRIBUTE" ∧
      get_egl_error_string2 EGL_BAD_CONTEXT = "EGL_BAD_CONTEXT" ∧
      get_egl_error_string2 EGL_BAD_CONFIG = "EGL_BAD_CONFIG" ∧
      get_egl_error_string2 EGL_BAD_CURRENT_SURFACE = "EGL_BAD_CURRENT_SURFACE" ∧
      get_egl_error_string2 EGL_BAD_DISPLAY = "EGL_BAD_DISPLAY" ∧
      get_egl_error_string2 EGL_BAD_SURFACE = "EGL_BAD_SURFACE" ∧
      get_egl_error_string2 EGL_BAD_MATCH = "EGL_BAD_MATCH" ∧
      get_egl_error_string2 EGL_BAD_PARAMETER = "EGL_BAD_PARAMETER" ∧
      get_egl_error_string2 EGL_BAD_NATIVE_PIXMAP = "EGL_BAD_NATIVE_PIXMAP" ∧
      get_egl_error_string2 EGL_BAD_NATIVE_WINDOW = "EGL_BAD_NATIVE_WINDOW" ∧
      get_egl_error_string2 EGL_CONTEXT_LOST = "EGL_CONTEXT_LOST") ∧
    [EGL_SUCCESS, EGL_NOT_INITIALIZED, EGL_BAD_ACCESS, EGL_BAD_ALLOC, EGL_BAD_ATTRIBUTE,
      EGL_BAD_CONFIG, EGL_BAD_CONTEXT, EGL_BAD_CURRENT_SURFACE, EGL_BAD_DISPLAY,
      EGL_BAD_MATCH, EGL_BAD_NATIVE_PIXMAP, EGL_BAD_NATIVE_WINDOW, EGL_BAD_PARAMETER,
      EGL_BAD_SURFACE, EGL_CONTEXT_LOST] = (List.range 15).map (fun i => (0x3000 : Int) + i) ∧
    (∀ a b : Int, 0x3000 ≤ a → a ≤ 0x300E → 0x3000 ≤ b → b ≤ 0x300E → a ≠ b →
      get_egl_error_string2 a ≠ get_egl_error_string2 b) ∧
    (∀ e : Int, get_egl_error_string2 e = "Unknown" ↔ (e < 0x3000 ∨ 0x300E < e)) := by
  refine ⟨⟨rfl, rfl, rfl, rfl, rfl, rfl, rfl, rfl, rfl, rfl, rfl, rfl, rfl, rfl, rfl⟩, by decide,
    get_egl_error_string2_distinct, fun e => ⟨fun h => ?_, get_egl_error_string2_outside e⟩⟩
  by_contra hc
  push_neg at hc
  exact get_egl_error_string2_inside e hc.1 hc.2 h

/-- Introducing the final state, the result and the appended events of a run
at once. -/
theorem run_intro {β : Type} {f : Option (State × β)} {s : State}
    {P : State → β → List Event → Prop} (m : Memory) (es : List Event) (b : β)
    (hf : f = some (⟨m, s.trace ++ es⟩, b)) (hP : P ⟨m, s.trace ++ es⟩ b es) :
    ∃ s1 ok rest, f = some (s1, ok) ∧ s1.trace = s.trace ++ rest ∧ P s1 ok rest :=
  ⟨_, _, es, hf, rfl, hP⟩

set_option maxHeartbeats 1000000 in
/-- What `gl_context_create` does on a valid platform block, path by path. -/
theorem gl_context_create_spec (E : Env) (s : State) (plat : Ptr) (p0 : gl_platform)
    (hp : load s.mem.platform plat = some p0) :
    ∃ s1 ok rest, gl_context_create E s plat = some (s1, ok) ∧
      s1.trace = s.trace ++ rest ∧
      (ok = true ↔ context_steps_succeed E) ∧
      (ok = true → load s1.mem.platform plat =
        some ⟨run_display E, run_config E, run_context E, run_pbuffer E⟩) ∧
      s1.mem.device = s.mem.device ∧ s1.mem.swap_chain = s.mem.swap_chain ∧
      s1.mem.windowinfo = s.mem.windowinfo ∧
      (∀ q, q ≠ plat → s1.mem.platform q = s.mem.platform q) ∧
      make_current_requests rest = [] ∧
      (ok = true →
        rest.filterMap checked_step = [Step.get_display, Step.init_display, Step.choose_config,
          Step.create_context, Step.create_pbuffer] ∨
        (E.debug = true ∧
         rest.filterMap checked_step = [Step.get_display, Step.init_display, Step.choose_config,
          Step.create_context, Step.create_context, Step.create_pbuffer])) ∧
      (ok = true → created_contexts rest = [run_context E] ∧ destroyed_contexts rest = []) ∧
      (ok = false → destroyed_contexts rest = created_contexts rest) ∧
      (ok = true → records_handles rest
        ⟨run_display E, run_config E, run_context E, run_pbuffer E⟩) := by
  have hnn : plat ≠ NULL := load_some_ne_null hp
  have hupd : ∀ (v : Option gl_platform) (q : Ptr), ¬ q = plat →
      Function.update s.mem.platform plat v q = s.mem.platform q :=
    fun v q hq => Function.update_noteq hq _ _
  unfold gl_context_create gl_context_create_context gl_context_create_pbuffer
  simp only [context_steps_succeed, run_context, retries, first_create, run_pbuffer, run_config,
    run_display]
  obtain ⟨d, hd_eq⟩ : ∃ d, E.eglGetPlatformDisplayEXT 12802 EGL_DEFAULT_DISPLAY display_args = d :=
    ⟨_, rfl⟩
  obtain ⟨ini, hini_eq⟩ : ∃ x, E.eglInitialize d = x := ⟨_, rfl⟩
  obtain ⟨cc, hcc_eq⟩ : ∃ x, E.eglChooseConfig d ctx_config_attribs 1 = x := ⟨_, rfl⟩
  obtain ⟨c1, hc1_eq⟩ : ∃ x, E.eglCreateContext d cc.2.1 EGL_NO_CONTEXT (ctx_attribs E.debug) = x :=
    ⟨_, rfl⟩
  obtain ⟨c2, hc2_eq⟩ : ∃ x,
    E.eglCreateContext d cc.2.1 EGL_NO_CONTEXT (List.drop 2 (ctx_attribs E.debug)) = x := ⟨_, rfl⟩
  obtain ⟨pb, hpb_eq⟩ : ∃ x, E.eglCreatePbufferSurface d cc.2.1 ctx_pbuffer_attribs = x :=
    ⟨_, rfl⟩
  obtain ⟨err, herr_eq⟩ : ∃ x, E.eglGetError (some (Event.eglCreateContext d cc.2.1
    EGL_NO_CONTEXT (ctx_attribs E.debug) c1)) = x := ⟨_, rfl⟩
  simp only [hd_eq, hini_eq, hcc_eq, hc1_eq, hc2_eq, hpb_eq, emit, get_egl_error_string,
    gl_context_create_error, List.getLast?_concat, herr_eq]
  clear hd_eq hini_eq hcc_eq hc1_eq hc2_eq hpb_eq herr_eq
  by_cases hd : EGL_NO_DISPLAY = d
  · cases hdbg : E.debug
    · apply run_intro
      · simp only [hdbg, hd.symm, if_false, if_true, Bool.false_eq_true, true_and, and_true,
          and_false, false_and, not_true_eq_false, not_false_eq_true, ne_eq, List.append_assoc,
          List.singleton_append, List.cons_append, store_platform, hp, Option.map_some',
          Option.some_bind, Option.bind_eq_bind, Option.pure_def, load_update_same _ _ _ hnn,
          Function.update_idem]
        rfl
      · simp [hdbg, hd.symm, make_current_requests, created_contexts, destroyed_contexts, checked_step,
          records_handles, load_update_same, hnn, Nat.pos_of_ne_zero]
    · apply run_intro
      · simp only [hdbg, hd.symm, if_false, if_true, Bool.false_eq_true, true_and, and_true,
          and_false, false_and, not_true_eq_false, not_false_eq_true, ne_eq, List.append_assoc,
          List.singleton_append, List.cons_append, store_platform, hp, Option.map_some',
          Option.some_bind, Option.bind_eq_bind, Option.pure_def, load_update_same _ _ _ hnn,
          Function.update_idem]
        rfl
      · simp [hdbg, hd.symm, make_current_requests, created_contexts, destroyed_contexts, checked_step,
          records_handles, load_update_same, hnn, Nat.pos_of_ne_zero]
  · have hdn : ¬ d = NULL := fun h => hd h.symm
    have hd2 : ¬ d = EGL_NO_DISPLAY := fun h => hd h.symm
    by_cases hi : ini.1 = 0
    · cases hdbg : E.debug
      · apply run_intro
        · simp only [hdbg, hd, hd2, hi, if_false, if_true, Bool.false_eq_true, true_and, and_true,
            and_false, false_and, not_true_eq_false, not_false_eq_true, ne_eq, List.append_assoc,
            List.singleton_append, List.cons_append, store_platform, hp, Option.map_some',
            Option.some_bind, Option.bind_eq_bind, Option.pure_def, load_update_same _ _ _ hnn,
            Function.update_idem]
          rfl
        · simp [hdbg, hd, hd2, hi, make_current_requests, created_contexts, destroyed_contexts, checked_step,
            records_handles, hdn, load_update_same, hnn, Nat.pos_of_ne_zero]
      · apply run_intro
        · simp only [hdbg, hd, hd2, hi, if_false, if_true, Bool.false_eq_true, true_and, and_true,
            and_false, false_and, not_true_eq_false, not_false_eq_true, ne_eq, List.append_assoc,
            List.singleton_append, List.cons_append, store_platform, hp, Option.map_some',
            Option.some_bind, Option.bind_eq_bind, Option.pure_def, load_update_same _ _ _ hnn,
            Function.update_idem]
          rfl
        · simp [hdbg, hd, hd2, hi, make_current_requests, created_contexts, destroyed_contexts, checked_step,
            records_handles, hdn, load_update_same, hnn, Nat.pos_of_ne_zero]
    · by_cases hc : cc.1 = 0
      · cases hdbg : E.debug
        · apply run_intro
          · simp only [hdbg, hd, hd2, hi, hc, if_false, if_true, Bool.false_eq_true, true_and, and_true,
              and_false, false_and, not_true_eq_false, not_false_eq_true, ne_eq, List.append_assoc,
              List.singleton_append, List.cons_append, store_platform, hp, Option.map_some',
              Option.some_bind, Option.bind_eq_bind, Option.pure_def, load_update_same _ _ _ hnn,
              Function.update_idem]
            rfl
          · simp [hdbg, hd, hd2, hi, hc, make_current_requests, created_contexts, destroyed_contexts, checked_step,
              records_handles, hdn, load_update_same, hnn, Nat.pos_of_ne_zero]
        · apply run_intro
          · simp only [hdbg, hd, hd2, hi, hc, if_false, if_true, Bool.false_eq_true, true_and, and_true,
              and_false, false_and, not_true_eq_false, not_false_eq_true, ne_eq, List.append_assoc,
              List.singleton_append, List.cons_append, store_platform, hp, Option.map_some',
              Option.some_bind, Option.bind_eq_bind, Option.pure_def, load_update_same _ _ _ hnn,
              Function.update_idem]
            rfl
          · simp [hdbg, hd, hd2, hi, hc, make_current_requests, created_contexts, destroyed_contexts, checked_step,
              records_handles, hdn, load_update_same, hnn, Nat.pos_of_ne_zero]
      · by_cases hc1 : EGL_NO_CONTEXT = c1
        · cases hdbg : E.debug
          · apply run_intro
            · simp only [hdbg, hd, hd2, hi, hc, hc1.symm, if_false, if_true, Bool.false_eq_true, true_and, and_true,
                and_false, false_and, not_true_eq_false, not_false_eq_true, ne_eq, List.append_assoc,
                List.singleton_append, List.cons_append, store_platform, hp, Option.map_some',
                Option.some_bind, Option.bind_eq_bind, Option.pure_def, load_update_same _ _ _ hnn,
                Function.update_idem]
              rfl
            · simp [hdbg, hd, hd2, hi, hc, hc1.symm, make_current_requests, created_contexts, destroyed_contexts, checked_step,
                records_handles, hdn, load_update_same, hnn, Nat.pos_of_ne_zero]
          · by_cases herr : err = EGL_BAD_ATTRIBUTE
            · by_cases hc2 : EGL_NO_CONTEXT = c2
              · apply run_intro
                · simp only [hdbg, hd, hd2, hi, hc, hc1.symm, herr, hc2.symm, if_false, if_true, Bool.false_eq_true, true_and, and_true,
                    and_false, false_and, not_true_eq_false, not_false_eq_true, ne_eq, List.append_assoc,
                    List.singleton_append, List.cons_append, store_platform, hp, Option.map_some',
                    Option.some_bind, Option.bind_eq_bind, Option.pure_def, load_update_same _ _ _ hnn,
                    Function.update_idem]
                  rfl
                · simp [hdbg, hd, hd2, hi, hc, hc1.symm, herr, hc2.symm, make_current_requests, created_contexts, destroyed_contexts, checked_step,
                    records_handles, hdn, load_update_same, hnn, Nat.pos_of_ne_zero]
              · have hc2b : ¬ c2 = EGL_NO_CONTEXT := fun h => hc2 h.symm
                by_cases hpb : EGL_NO_SURFACE = pb
                · apply run_intro
                  · simp only [hdbg, hd, hd2, hi, hc, hc1.symm, herr, hc2, hc2b, hpb.symm, if_false, if_true, Bool.false_eq_true, true_and, and_true,
                      and_false, false_and, not_true_eq_false, not_false_eq_true, ne_eq, List.append_assoc,
                      List.singleton_append, List.cons_append, store_platform, hp, Option.map_some',
                      Option.some_bind, Option.bind_eq_bind, Option.pure_def, load_update_same _ _ _ hnn,
                      Function.update_idem]
                    rfl
                  · simp [hdbg, hd, hd2, hi, hc, hc1.symm, herr, hc2, hc2b, hpb.symm, make_current_requests, created_contexts, destroyed_contexts, checked_step,
                      records_handles, hdn, load_update_same, hnn, Nat.pos_of_ne_zero]
                    exact fun q hq => hupd _ q hq
                · have hpb2 : ¬ pb = EGL_NO_SURFACE := fun h => hpb h.symm
                  apply run_intro
                  · simp only [hdbg, hd, hd2, hi, hc, hc1.symm, herr, hc2, hc2b, hpb, hpb2, if_false, if_true, Bool.false_eq_true, true_and, and_true,
                      and_false, false_and, not_true_eq_false, not_false_eq_true, ne_eq, List.append_assoc,
                      List.singleton_append, List.cons_append, store_platform, hp, Option.map_some',
                      Option.some_bind, Option.bind_eq_bind, Option.pure_def, load_update_same _ _ _ hnn,
                      Function.update_idem]
                    rfl
                  · simp [hdbg, hd, hd2, hi, hc, hc1.symm, herr, hc2, hc2b, hpb, hpb2, make_current_requests, created_contexts, destroyed_contexts, checked_step,
                      records_handles, hdn, load_update_same, hnn, Nat.pos_of_ne_zero]
                    exact fun q hq => hupd _ q hq
            · apply run_intro
              · simp only [hdbg, hd, hd2, hi, hc, hc1.symm, herr, if_false, if_true, Bool.false_eq_true, true_and, and_true,
                  and_false, false_and, not_true_eq_false, not_false_eq_true, ne_eq, List.append_assoc,
                  List.singleton_append, List.cons_append, store_platform, hp, Option.map_some',
                  Option.some_bind, Option.bind_eq_bind, Option.pure_def, load_update_same _ _ _ hnn,
                  Function.update_idem]
                rfl
              · simp [hdbg, hd, hd2, hi, hc, hc1.symm, herr, make_current_requests, created_contexts, destroyed_contexts, checked_step,
                  records_handles, hdn, load_update_same, hnn, Nat.pos_of_ne_zero]
        · have hc1b : ¬ c1 = EGL_NO_CONTEXT := fun h => hc1 h.symm
          by_cases hpb : EGL_NO_SURFACE = pb
          · cases hdbg : E.debug
            · apply run_intro
              · simp only [hdbg, hd, hd2, hi, hc, hc1, hc1b, hpb.symm, if_false, if_true, Bool.false_eq_true, true_and, and_true,
                  and_false, false_and, not_true_eq_false, not_false_eq_true, ne_eq, List.append_assoc,
                  List.singleton_append, List.cons_append, store_platform, hp, Option.map_some',
                  Option.some_bind, Option.bind_eq_bind, Option.pure_def, load_update_same _ _ _ hnn,
                  Function.update_idem]
                rfl
              · simp [hdbg, hd, hd2, hi, hc, hc1, hc1b, hpb.symm, make_current_requests, created_contexts, destroyed_contexts, checked_step,
                  records_handles, hdn, load_update_same, hnn, Nat.pos_of_ne_zero]
                exact fun q hq => hupd _ q hq
            · apply run_intro
              · simp only [hdbg, hd, hd2, hi, hc, hc1, hc1b, hpb.symm, if_false, if_true, Bool.false_eq_true, true_and, and_true,
                  and_false, false_and, not_true_eq_false, not_false_eq_true, ne_eq, List.append_assoc,
                  List.singleton_append, List.cons_append, store_platform, hp, Option.map_some',
                  Option.some_bind, Option.bind_eq_bind, Option.pure_def, load_update_same _ _ _ hnn,
                  Function.update_idem]
                rfl
              · simp [hdbg, hd, hd2, hi, hc, hc1, hc1b, hpb.symm, make_current_requests, created_contexts, destroyed_contexts, checked_step,
                  records_handles, hdn, load_update_same, hnn, Nat.pos_of_ne_zero]
                exact fun q hq => hupd _ q hq
          · have hpb2 : ¬ pb = EGL_NO_SURFACE := fun h => hpb h.symm
            cases hdbg : E.debug
            · apply run_intro
              · simp only [hdbg, hd, hd2, hi, hc, hc1, hc1b, hpb, hpb2, if_false, if_true, Bool.false_eq_true, true_and, and_true,
                  and_false, false_and, not_true_eq_false, not_false_eq_true, ne_eq, List.append_assoc,
                  List.singleton_append, List.cons_append, store_platform, hp, Option.map_some',
                  Option.some_bind, Option.bind_eq_bind, Option.pure_def, load_update_same _ _ _ hnn,
                  Function.update_idem]
                rfl
              · simp [hdbg, hd, hd2, hi, hc, hc1, hc1b, hpb, hpb2, make_current_requests, created_contexts, destroyed_contexts, checked_step,
                  records_handles, hdn, load_update_same, hnn, Nat.pos_of_ne_zero]
                exact fun q hq => hupd _ q hq
            · apply run_intro
              · simp only [hdbg, hd, hd2, hi, hc, hc1, hc1b, hpb, hpb2, if_false, if_true, Bool.false_eq_true, true_and, and_true,
                  and_false, false_and, not_true_eq_false, not_false_eq_true, ne_eq, List.append_assoc,
                  List.singleton_append, List.cons_append, store_platform, hp, Option.map_some',
                  Option.some_bind, Option.bind_eq_bind, Option.pure_def, load_update_same _ _ _ hnn,
                  Function.update_idem]
                rfl
              · simp [hdbg, hd, hd2, hi, hc, hc1, hc1b, hpb, hpb2, make_current_requests, created_contexts, destroyed_contexts, checked_step,
                  records_handles, hdn, load_update_same, hnn, Nat.pos_of_ne_zero]
                exact fun q hq => hupd _ q hq

theorem records_handles_mono {a b : List Event} {p : gl_platform}
    (hab : ∀ e, e ∈ a → e ∈ b) (h : records_handles a p) : records_handles b p := by
  obtain ⟨⟨x1, x2, x3, h1⟩, ⟨y1, y2, y3, y4, hy, h2⟩, ⟨z1, z2, h3⟩, ⟨w1, h4⟩⟩ := h
  exact ⟨⟨x1, x2, x3, hab _ h1⟩, ⟨y1, y2, y3, y4, hy, hab _ h2⟩, ⟨z1, z2, hab _ h3⟩,
    ⟨w1, hab _ h4⟩⟩

set_option maxHeartbeats 1000000 in
/-- What `gl_platform_create` does on a valid device, path by path. -/
theorem gl_platform_create_spec (E : Env) (s : State) (device : Ptr) (adapter : Nat)
    (dev : gs_device)
    (hdev : load s.mem.device device = some dev) (hnn : E.bmalloc ≠ NULL) :
    ∃ s1 ret rest, gl_platform_create E s device adapter = some (s1, ret) ∧
      s1.trace = s.trace ++ rest ∧
      (ret ≠ NULL ↔ all_steps_succeed E) ∧
      (ret ≠ NULL →
        ret = E.bmalloc ∧
        load s1.mem.device device = some { dev with plat := ret } ∧
        load s1.mem.platform ret =
          some ⟨run_display E, run_config E, run_context E, run_pbuffer E⟩ ∧
        make_current_requests rest =
          [(run_display E, run_pbuffer E, run_pbuffer E, run_context E)] ∧
        (rest.filterMap checked_step = [Step.load_egl, Step.get_display, Step.init_display,
            Step.choose_config, Step.create_context, Step.create_pbuffer, Step.make_current,
            Step.load_gles] ∨
          (E.debug = true ∧
           rest.filterMap checked_step = [Step.load_egl, Step.get_display, Step.init_display,
            Step.choose_config, Step.create_context, Step.create_context, Step.create_pbuffer,
            Step.make_current, Step.load_gles])) ∧
        records_handles rest ⟨run_display E, run_config E, run_context E, run_pbuffer E⟩) ∧
      (ret = NULL → ¬ only_gles_fails E → destroyed_contexts rest = created_contexts rest) ∧
      (ret = NULL → only_gles_fails E →
        created_contexts rest = [run_context E] ∧ destroyed_contexts rest = []) := by
  have hdn : device ≠ NULL := load_some_ne_null hdev
  have hnn2 : ¬ NULL = E.bmalloc := fun h => hnn h.symm
  have hctx_iff : all_steps_succeed E ↔ (E.gladLoaderLoadEGL NULL ≠ 0 ∧ context_steps_succeed E ∧
      E.eglMakeCurrent (run_display E) (run_pbuffer E) (run_pbuffer E) (run_context E) ≠ 0 ∧
      E.gladLoaderLoadGLES2 ≠ 0) := by
    simp only [all_steps_succeed, context_steps_succeed]
    tauto
  unfold gl_platform_create
  by_cases hl : E.gladLoaderLoadEGL NULL = 0
  · apply run_intro
    · simp only [hl, if_true, emit, gl_platform_create_fail, List.append_assoc,
        List.singleton_append, List.cons_append, Option.pure_def]
      rfl
    · simp [hl, hctx_iff, only_gles_fails, created_contexts, destroyed_contexts]
  · simp only [hl, ↓reduceIte, emit, store_device, hdev, Option.map_some', Option.some_bind,
      Option.bind_eq_bind, List.append_assoc, List.singleton_append]
    obtain ⟨s1, ok, rest1, hrun, htr, hok, hload, hdev1, -, -, hfr, hmc, hsteps, hcc, hfail, hrec⟩ :=
      gl_context_create_spec E
        ⟨{ s.mem with
            platform := Function.update s.mem.platform E.bmalloc (some E.fresh)
            device := Function.update s.mem.device device (some { dev with plat := E.bmalloc }) },
          s.trace ++ [Event.bmalloc E.bmalloc,
            Event.gladLoaderLoadEGL NULL (E.gladLoaderLoadEGL NULL)]⟩
        E.bmalloc E.fresh (load_update_same _ _ _ hnn)
    rw [hrun]
    dsimp only at htr hdev1 hfr
    simp only [make_current_requests, created_contexts, destroyed_contexts] at hmc hcc hfail
    cases ok
    · have hno : ¬ context_steps_succeed E := fun h => by simpa using hok.2 h
      have hf := hfail rfl
      apply run_intro
      · simp only [Option.some_bind, if_true, gl_platform_create_fail, emit, htr,
          List.append_assoc, List.singleton_append, List.cons_append, Option.pure_def]
        rfl
      · simp [hctx_iff, hno, only_gles_fails, created_contexts, destroyed_contexts,
          List.filterMap_append, hf]
    · have hyes : context_steps_succeed E := hok.1 rfl
      have hld := hload rfl
      have hst := hsteps rfl
      obtain ⟨hc1, hc2⟩ := hcc rfl
      have hr := hrec rfl
      by_cases hm : E.eglMakeCurrent (run_display E) (run_pbuffer E) (run_pbuffer E)
          (run_context E) = 0
      · apply run_intro
        · simp only [Option.some_bind, Bool.true_eq_false, if_false, if_true, hld, hm, emit, htr,
            get_egl_error_string, gl_context_destroy, gl_platform_create_fail,
            List.append_assoc, List.singleton_append, List.cons_append, Option.pure_def,
            Option.bind_eq_bind]
          rfl
        · simp [hctx_iff, hyes, hm, hl, only_gles_fails, created_contexts, destroyed_contexts,
            List.filterMap_append, hc1, hc2]
      · by_cases hg : E.gladLoaderLoadGLES2 = 0
        · apply run_intro
          · simp only [Option.some_bind, Bool.true_eq_false, if_false, if_true, hld, hm, hg, emit,
              htr, gl_platform_create_fail, List.append_assoc, List.singleton_append,
              List.cons_append, Option.pure_def]
            rfl
          · simp [hctx_iff, hyes, hm, hg, hl, only_gles_fails, created_contexts,
              destroyed_contexts, List.filterMap_append, hc1, hc2]
        · apply run_intro
          · simp only [Option.some_bind, Bool.true_eq_false, if_false, hld, hm, hg, emit, htr,
              List.append_assoc, List.singleton_append, List.cons_append, Option.pure_def]
            rfl
          · simp [hctx_iff, hyes, hm, hg, hl, hnn, hnn2, hdev1, load_update_same, hdn, hld,
              make_current_requests, List.filterMap_append, hmc, checked_step]
            refine ⟨?_, records_handles_mono (fun e he => ?_) hr⟩
            · rcases hst with h | ⟨hd, h⟩
              · left; rw [h]; rfl
              · right; exact ⟨hd, by rw [h]; rfl⟩
            · simp [he]

theorem device_enter_context_platform (E : Env) (s s1 : State) (device : Ptr)
    (h : device_enter_context E s device = some s1) : s1.mem.platform = s.mem.platform := by
  cases hd : load s.mem.device device with
  | none => simp [device_enter_context, hd] at h
  | some dev =>
    cases hp : load s.mem.platform dev.plat with
    | none => simp [device_enter_context, hd, hp] at h
    | some plat =>
      by_cases hc : dev.cur_swap = NULL
      · rw [device_enter_context_null E s device dev plat hd hp hc] at h
        simp only [Option.some.injEq] at h
        rw [← h]
      · cases hs : load s.mem.swap_chain dev.cur_swap with
        | none => simp [device_enter_context, hd, hp, hc, hs] at h
        | some sw =>
          cases hw : load s.mem.windowinfo sw.wi with
          | none => simp [device_enter_context, hd, hp, hc, hs, hw] at h
          | some wi =>
            rw [device_enter_context_swap E s device dev plat sw wi hd hp hs hw] at h
            simp only [Option.some.injEq] at h
            rw [← h]

theorem device_leave_context_platform (E : Env) (s s1 : State) (device : Ptr)
    (h : device_leave_context E s device = some s1) : s1.mem.platform = s.mem.platform := by
  cases hd : load s.mem.device device with
  | none => simp [device_leave_context, store_device, emit, hd] at h
  | some dev =>
    cases hp : load s.mem.platform dev.plat with
    | none =>
      simp [device_leave_context, store_device, emit, hd, hp, load_update_same,
        load_some_ne_null hd] at h
    | some plat =>
      rw [device_leave_context_eq E s device dev plat hd hp] at h
      simp only [Option.some.injEq] at h
      rw [← h]

theorem device_load_swapchain_platform (E : Env) (s s1 : State) (device swap : Ptr)
    (h : device_load_swapchain E s device swap = some s1) :
    s1.mem.platform = s.mem.platform := by
  cases hd : load s.mem.device device with
  | none => simp [device_load_swapchain, hd] at h
  | some dev =>
    by_cases hc : dev.cur_swap = swap
    · simp [device_load_swapchain, hd, hc] at h
      rw [← h]
    · simp only [device_load_swapchain, hd, hc, store_device, Option.bind_eq_bind,
        Option.some_bind, if_false, Option.map_some'] at h
      have key := device_enter_context_platform E _ s1 device h
      exact key

theorem device_present_platform (E : Env) (s s1 : State) (device : Ptr)
    (h : device_present E s device = some s1) : s1.mem.platform = s.mem.platform := by
  cases hd : load s.mem.device device with
  | none => simp [device_present, hd] at h
  | some dev =>
    cases hp : load s.mem.platform dev.plat with
    | none => simp [device_present, hd, hp] at h
    | some plat =>
      cases hs : load s.mem.swap_chain dev.cur_swap with
      | none => simp [device_present, hd, hp, hs] at h
      | some sw =>
        cases hw : load s.mem.windowinfo sw.wi with
        | none => simp [device_present, hd, hp, hs, hw] at h
        | some wi =>
          simp only [device_present, hd, hp, hs, hw, Option.bind_eq_bind, Option.some_bind,
            Option.pure_def, emit, get_egl_error_string] at h
          split_ifs at h <;> simp only [Option.some.injEq] at h <;> rw [← h]

theorem gl_platform_init_swapchain_platform (E : Env) (s s1 : State) (swap : Ptr) (ok : Bool)
    (h : gl_platform_init_swapchain E s swap = some (s1, ok)) :
    s1.mem.platform = s.mem.platform := by
  cases hs : load s.mem.swap_chain swap with
  | none => simp [gl_platform_init_swapchain, hs] at h
  | some sw =>
    cases hw : load s.mem.windowinfo sw.wi with
    | none => simp [gl_platform_init_swapchain, hs, hw] at h
    | some wi =>
      cases hd : load s.mem.device sw.device with
      | none => simp [gl_platform_init_swapchain, hs, hw, hd] at h
      | some dev =>
        cases hp : load s.mem.platform dev.plat with
        | none => simp [gl_platform_init_swapchain, hs, hw, hd, hp] at h
        | some plat =>
          by_cases hc : EGL_NO_SURFACE =
              E.eglCreateWindowSurface plat.edisplay plat.config wi.hwnd 0
          · simp [gl_platform_init_swapchain, hs, hw, hd, hp, hc.symm, emit,
              get_egl_error_string] at h
            rw [← h.1]
          · simp [gl_platform_init_swapchain, hs, hw, hd, hp, hc, emit,
              store_windowinfo] at h
            rw [← h.1]

/-- C3. For a valid device and an allocator that does not return `NULL`,
`gl_platform_create` returns, and the pointer it returns is not `NULL` exactly
when all the checked steps succeed: the EGL loader, the display, its
initialisation, the config, the context, the pbuffer, making the context
current on the pbuffer, and the GLES loader.  On success the device's `plat`
is the returned platform, the only make-current request of the run uses the
platform's display, its pbuffer as draw and read surface, and its context,
and the checked requests were issued in the order above (the context request
twice when the `_DEBUG` retry happened). -/
theorem gl_platform_create_succeeds_iff (E : Env) (s : State) (device : Ptr) (adapter : Nat)
    (dev : gs_device)
    (hdev : load s.mem.device device = some dev) (hnn : E.bmalloc ≠ NULL) :
    ∃ s1 ret rest, gl_platform_create E s device adapter = some (s1, ret) ∧
      s1.trace = s.trace ++ rest ∧
      (ret ≠ NULL ↔ all_steps_succeed E) ∧
      (ret ≠ NULL →
        ∃ d1 p, load s1.mem.device device = some d1 ∧ d1.plat = ret ∧
          load s1.mem.platform ret = some p ∧
          make_current_requests rest = [(p.edisplay, p.pbuffer, p.pbuffer, p.context)] ∧
          (rest.filterMap checked_step = [Step.load_egl, Step.get_display, Step.init_display,
              Step.choose_config, Step.create_context, Step.create_pbuffer, Step.make_current,
              Step.load_gles] ∨
            (E.debug = true ∧
             rest.filterMap checked_step = [Step.load_egl, Step.get_display,
              Step.init_display, Step.choose_config, Step.create_context, Step.create_context,
              Step.create_pbuffer, Step.make_current, Step.load_gles]))) := by
  obtain ⟨s1, ret, rest, hrun, htr, hiff, hok, -, -⟩ :=
    gl_platform_create_spec E s device adapter dev hdev hnn
  refine ⟨s1, ret, rest, hrun, htr, hiff, fun h => ?_⟩
  obtain ⟨-, h2, h3, h4, h5, -⟩ := hok h
  exact ⟨_, _, h2, rfl, h3, h4, h5⟩

theorem all_steps_succeed_demo_env : all_steps_succeed demo_env := by
  unfold all_steps_succeed
  decide

/-- C3 in the world `demo_env`, where every step succeeds, at a heap whose
device at `1` has no platform yet. -/
theorem gl_platform_create_succeeds_iff_witness :
    all_steps_succeed demo_env ∧
    ∃ s1 ret rest, gl_platform_create demo_env fresh_state 1 0 = some (s1, ret) ∧
      s1.trace = fresh_state.trace ++ rest ∧
      (ret ≠ NULL ↔ all_steps_succeed demo_env) ∧
      (ret ≠ NULL →
        ∃ d1 p, load s1.mem.device 1 = some d1 ∧ d1.plat = ret ∧
          load s1.mem.platform ret = some p ∧
          make_current_requests rest = [(p.edisplay, p.pbuffer, p.pbuffer, p.context)] ∧
          (rest.filterMap checked_step = [Step.load_egl, Step.get_display, Step.init_display,
              Step.choose_config, Step.create_context, Step.create_pbuffer, Step.make_current,
              Step.load_gles] ∨
            (demo_env.debug = true ∧
             rest.filterMap checked_step = [Step.load_egl, Step.get_display,
              Step.init_display, Step.choose_config, Step.create_context, Step.create_context,
              Step.create_pbuffer, Step.make_current, Step.load_gles]))) :=
  ⟨all_steps_succeed_demo_env,
    gl_platform_create_succeeds_iff demo_env fresh_state 1 0 ⟨0, 0, 0, 0, 0, 0, 0, 99⟩ rfl
      (by decide)⟩

/-- C9, the failing run.  In the world `gles_fail_env` every step succeeds but
the GLES loader.  `gl_platform_create` returns `NULL`; the run created the
context `13` and asked to destroy no context. -/
theorem gl_platform_create_leaks_context :
    (gl_platform_create gles_fail_env fresh_state 1 0).map
        (fun r => (r.2, created_contexts r.1.trace, destroyed_contexts r.1.trace)) =
      some (NULL, [13], []) := by
  rfl

/-- When `gl_platform_create` returns `NULL`, the contexts the run asked to
destroy are exactly those it created, unless the GLES loader is the step that
failed: then the run created one context and asked to destroy none. -/
theorem gl_platform_create_contexts (E : Env) (s : State) (device : Ptr) (adapter : Nat)
    (dev : gs_device)
    (hdev : load s.mem.device device = some dev) (hnn : E.bmalloc ≠ NULL) :
    ∃ s1 ret rest, gl_platform_create E s device adapter = some (s1, ret) ∧
      s1.trace = s.trace ++ rest ∧
      (ret = NULL → ¬ only_gles_fails E → destroyed_contexts rest = created_contexts rest) ∧
      (ret = NULL → only_gles_fails E →
        created_contexts rest = [run_context E] ∧ run_context E ≠ EGL_NO_CONTEXT ∧
        destroyed_contexts rest = []) := by
  obtain ⟨s1, ret, rest, hrun, htr, -, -, h1, h2⟩ :=
    gl_platform_create_spec E s device adapter dev hdev hnn
  refine ⟨s1, ret, rest, hrun, htr, h1, fun hr hg => ?_⟩
  obtain ⟨h3, h4⟩ := h2 hr hg
  exact ⟨h3, hg.2.1.2.2.2.1, h4⟩

/-- C10. A platform for which `gl_context_create` returns `true`, and a
platform `gl_platform_create` returns, holds a display other than
`EGL_NO_DISPLAY`, a context other than `EGL_NO_CONTEXT` and a pbuffer other
than `EGL_NO_SURFACE`; its display, config, context and pbuffer are the
answers the run got to its display, choose-config, create-context and
create-pbuffer requests, and the trace of the run records them.  None of `device_enter_context`,
`device_leave_context`, `device_load_swapchain`, `device_present` and
`gl_platform_init_swapchain` changes any platform. -/
theorem platform_handles_invariant (E : Env) (s : State) (plat : Ptr) (p0 : gl_platform)
    (hp : load s.mem.platform plat = some p0)
    (t : State) (device : Ptr) (adapter : Nat) (dev : gs_device)
    (hdev : load t.mem.device device = some dev) (hnn : E.bmalloc ≠ NULL) :
    (∃ s1 ok rest, gl_context_create E s plat = some (s1, ok) ∧
      s1.trace = s.trace ++ rest ∧
      (ok = true → ∃ p, load s1.mem.platform plat = some p ∧
        p = ⟨run_display E, run_config E, run_context E, run_pbuffer E⟩ ∧
        p.edisplay ≠ EGL_NO_DISPLAY ∧ p.context ≠ EGL_NO_CONTEXT ∧
        p.pbuffer ≠ EGL_NO_SURFACE ∧ records_handles rest p)) ∧
    (∃ t1 ret rest, gl_platform_create E t device adapter = some (t1, ret) ∧
      t1.trace = t.trace ++ rest ∧
      (ret ≠ NULL → ∃ p, load t1.mem.platform ret = some p ∧
        p = ⟨run_display E, run_config E, run_context E, run_pbuffer E⟩ ∧
        p.edisplay ≠ EGL_NO_DISPLAY ∧ p.context ≠ EGL_NO_CONTEXT ∧
        p.pbuffer ≠ EGL_NO_SURFACE ∧ records_handles rest p)) ∧
    (∀ u u1 d, device_enter_context E u d = some u1 → u1.mem.platform = u.mem.platform) ∧
    (∀ u u1 d, device_leave_context E u d = some u1 → u1.mem.platform = u.mem.platform) ∧
    (∀ u u1 d sw, device_load_swapchain E u d sw = some u1 →
      u1.mem.platform = u.mem.platform) ∧
    (∀ u u1 d, device_present E u d = some u1 → u1.mem.platform = u.mem.platform) ∧
    (∀ u u1 sw ok, gl_platform_init_swapchain E u sw = some (u1, ok) →
      u1.mem.platform = u.mem.platform) := by
  refine ⟨?_, ?_, fun u u1 d h => device_enter_context_platform E u u1 d h,
    fun u u1 d h => device_leave_context_platform E u u1 d h,
    fun u u1 d sw h => device_load_swapchain_platform E u u1 d sw h,
    fun u u1 d h => device_present_platform E u u1 d h,
    fun u u1 sw ok h => gl_platform_init_swapchain_platform E u u1 sw ok h⟩
  · obtain ⟨s1, ok, rest, hrun, htr, hok, hload, -, -, -, -, -, -, -, -, hrec⟩ :=
      gl_context_create_spec E s plat p0 hp
    refine ⟨s1, ok, rest, hrun, htr, fun h => ⟨_, hload h, rfl, ?_, ?_, ?_, hrec h⟩⟩
    · exact (hok.1 h).1
    · exact (hok.1 h).2.2.2.1
    · exact (hok.1 h).2.2.2.2
  · obtain ⟨t1, ret, rest, hrun, htr, hiff, hok, -, -⟩ :=
      gl_platform_create_spec E t device adapter dev hdev hnn
    refine ⟨t1, ret, rest, hrun, htr, fun h => ?_⟩
    obtain ⟨-, -, h3, -, -, h6⟩ := hok h
    have hall := hiff.1 h
    exact ⟨_, h3, rfl, hall.2.1, hall.2.2.2.2.1, hall.2.2.2.2.2.1, h6⟩

/-- C10 in the world `demo_env`: `gl_context_create` succeeds on the block at
`7` and leaves non-sentinel handles there, and the five functions run on the
demo heap without changing its platform. -/
theorem platform_handles_invariant_witness :
    (∃ s1 rest p, gl_context_create demo_env alloc_state 7 = some (s1, true) ∧
      load s1.mem.platform 7 = some p ∧
      p.edisplay ≠ EGL_NO_DISPLAY ∧ p.context ≠ EGL_NO_CONTEXT ∧
      p.pbuffer ≠ EGL_NO_SURFACE ∧ records_handles rest p) ∧
    (∃ u1, device_enter_context demo_env demo_state 1 = some u1 ∧
      u1.mem.platform = demo_state.mem.platform) ∧
    (∃ u1, device_leave_context demo_env demo_state 1 = some u1 ∧
      u1.mem.platform = demo_state.mem.platform) ∧
    (∃ u1, device_load_swapchain demo_env demo_state 1 NULL = some u1 ∧
      u1.mem.platform = demo_state.mem.platform) ∧
    (∃ u1, device_present demo_env demo_state 1 = some u1 ∧
      u1.mem.platform = demo_state.mem.platform) ∧
    (∃ u1 ok, gl_platform_init_swapchain demo_env demo_state 3 = some (u1, ok) ∧
      u1.mem.platform = demo_state.mem.platform) := by
  obtain ⟨⟨s1, ok, rest, hrun, -, hok⟩, -, he, hl, hs, hpr, hi⟩ :=
    platform_handles_invariant demo_env alloc_state 7 ⟨0, 0, 0, 0⟩ rfl
      fresh_state 1 0 ⟨0, 0, 0, 0, 0, 0, 0, 99⟩ rfl (by decide)
  have hmap : (gl_context_create demo_env alloc_state 7).map Prod.snd = some true := rfl
  rw [hrun] at hmap
  simp only [Option.map_some', Option.some.injEq] at hmap
  subst hmap
  obtain ⟨p, h1, -, h2, h3, h4, h5⟩ := hok rfl
  refine ⟨⟨s1, rest, p, hrun, h1, h2, h3, h4, h5⟩, ?_, ?_, ?_, ?_, ?_⟩
  · obtain ⟨u1, hu⟩ := Option.isSome_iff_exists.1
      (rfl : (device_enter_context demo_env demo_state 1).isSome = true)
    exact ⟨u1, hu, he _ _ _ hu⟩
  · obtain ⟨u1, hu⟩ := Option.isSome_iff_exists.1
      (rfl : (device_leave_context demo_env demo_state 1).isSome = true)
    exact ⟨u1, hu, hl _ _ _ hu⟩
  · obtain ⟨u1, hu⟩ := Option.isSome_iff_exists.1
      (rfl : (device_load_swapchain demo_env demo_state 1 NULL).isSome = true)
    exact ⟨u1, hu, hs _ _ _ _ hu⟩
  · obtain ⟨u1, hu⟩ := Option.isSome_iff_exists.1
      (rfl : (device_present demo_env demo_state 1).isSome = true)
    exact ⟨u1, hu, hpr _ _ _ hu⟩
  · obtain ⟨⟨u1, ok⟩, hu⟩ := Option.isSome_iff_exists.1
      (rfl : (gl_platform_init_swapchain demo_env demo_state 3).isSome = true)
    exact ⟨u1, ok, hu, hi _ _ _ _ hu⟩

end GlWindows
